import Mathlib

/-!
Shallow embedding of the asset-tag sequencer and asset lifecycle logic of the
inventory-management application (`app/assets/routes.py`, with the data model
taken from `app/models.py` and the migration scripts).

Conventions used throughout:
* Python `str` is Lean `String`; nullable ORM columns are `Option _`.
* Python dates (`datetime.date`) are the record `PyDate`; the current date is
  always passed in as an explicit argument.
* The numeric columns `cost` / `repair_cost` are represented by the exact
  source string the code accepted (`float(...)` / `Decimal(...)` succeeded on
  it); no claim inspects their arithmetic value, only whether parsing
  succeeded.
* Database rows live in plain lists inside a `Db` record; a SQLAlchemy
  session that is rolled back is modelled by returning the original `Db`.
-/

namespace Inventory

/-- Membership test used to mirror Python string truthiness on nullable text
columns: `not x` is true for both `None` and the empty string. -/
def optStrFalsy : Option String → Bool
  | none => true
  | some s => s = ""

/-- Python `x or None` for a plain string: empty strings collapse to `None`. -/
def strOrNone (s : String) : Option String :=
  if s = "" then none else some s

/-- Python `a or b or None` where `a` is a nullable string column and `b` a
plain string (used for vendor phone/address resolution in `start_repair`). -/
def pyOrStr (a : Option String) (b : String) : Option String :=
  match a with
  | some s => if s = "" then strOrNone b else some s
  | none => strOrNone b

/-- Python `repr`-style rendering of a nullable integer inside an f-string:
`None` prints as the word None, an int prints as its digits. -/
def optNatRepr : Option Nat → String
  | none => "None"
  | some n => toString n

/-- Tail of a Python integer digit group: after an initial digit, the
remaining characters must be digits, with single underscores allowed only
between two digits (`int("1_234")` succeeds, `int("1__2")`, `int("1_")` do
not). -/
def digitGroupTail : List Char → Bool
  | [] => true
  | '_' :: rest =>
    match rest with
    | [] => false
    | c :: rest2 => c.isDigit && digitGroupTail rest2
  | c :: rest => c.isDigit && digitGroupTail rest

/-- Whole digit group: non-empty, starts with a digit, underscores only
between digits. -/
def isDigitGroup (cs : List Char) : Bool :=
  match cs with
  | [] => false
  | c :: rest => c.isDigit && digitGroupTail rest

/-- Numeric value of a digit group, ignoring the underscore separators. -/
def digitsValue (cs : List Char) : Nat :=
  (cs.filter (fun c => c ≠ '_')).foldl (fun n c => n * 10 + (c.toNat - 48)) 0

/-- Python `str.strip()` on a character list: drop whitespace from both
ends. -/
def pyStripChars (cs : List Char) : List Char :=
  ((cs.dropWhile Char.isWhitespace).reverse.dropWhile Char.isWhitespace).reverse

/-- Python `str.strip()`. All string primitives in this development are
implemented over the underlying character list so that every operation
evaluates by kernel reduction. -/
def pyStrip (s : String) : String :=
  String.mk (pyStripChars s.data)

/-- Python `str.upper()` on ASCII input. -/
def pyUpper (s : String) : String :=
  String.mk (s.data.map Char.toUpper)

/-- Python `str.lower()` on ASCII input. -/
def pyLower (s : String) : String :=
  String.mk (s.data.map Char.toLower)

/-- Numeric value of a run of decimal digits. -/
def charsToNat (cs : List Char) : Nat :=
  cs.foldl (fun n c => n * 10 + (c.toNat - 48)) 0

/-- Python `str.isdigit()` on a character list (ASCII): non-empty and all
characters decimal digits. -/
def pyIsDigitChars (cs : List Char) : Bool :=
  ¬ cs.isEmpty && cs.all Char.isDigit

/-- Python `sep.join(parts)`. -/
def pyJoin (sep : String) : List String → String
  | [] => ""
  | [x] => x
  | x :: y :: xs => x ++ sep ++ pyJoin sep (y :: xs)

/-- Python `int(s)` on a string that cannot contain a minus sign (the tag
fragments it is applied to come from `str.split("-")`): strip surrounding
whitespace, allow one optional leading plus sign, then a digit group.
Returns `none` exactly when `int()` raises `ValueError`. -/
def pyInt? (s : String) : Option Nat :=
  let cs := pyStripChars s.data
  let cs := if cs.headD ' ' = '+' then cs.tail else cs
  if isDigitGroup cs then some (digitsValue cs) else none

/-- Python `str.split(sep)` for a one-character separator: empty pieces are
kept, the empty string splits to one empty piece. -/
def pySplit (sep : Char) : List Char → List (List Char)
  | [] => [[]]
  | c :: rest =>
    if c = sep then [] :: pySplit sep rest
    else
      match pySplit sep rest with
      | [] => [[c]]
      | g :: gs => (c :: g) :: gs

/-- Optional leading sign of a numeric literal. -/
def dropSign (cs : List Char) : List Char :=
  match cs with
  | '+' :: rest => rest
  | '-' :: rest => rest
  | other => other

/-- Mantissa part of a Python float literal: `digits`, `digits.`,
`digits.digits` or `.digits`, each digit run a valid digit group
(underscores strictly between digits, so the run after the dot must itself
start with a digit). -/
def floatMantissaOk (m : List Char) : Bool :=
  match pySplit '.' m with
  | [i] => isDigitGroup i
  | [i, f] =>
    if i = [] then isDigitGroup f
    else if f = [] then isDigitGroup i
    else isDigitGroup i && isDigitGroup f
  | _ => false

/-- Optionally signed digit group (the exponent of a float literal). -/
def signedDigitGroup (s : List Char) : Bool :=
  isDigitGroup (dropSign s)

/-- Whether Python `float(s)` succeeds: optional surrounding whitespace and
sign, then `inf`/`infinity`/`nan` (any case) or a mantissa with an optional
`e`/`E` exponent. -/
def pyFloatOk (s : String) : Bool :=
  let t := dropSign (pyStripChars s.data)
  let low := t.map Char.toLower
  if low = "inf".data || low = "infinity".data || low = "nan".data then true
  else
    match pySplit 'e' low with
    | [m] => floatMantissaOk m
    | [m, ex] => floatMantissaOk m && signedDigitGroup ex
    | _ => false

/-- Mantissa of a `Decimal` numeric string after underscore removal:
`\d*` optionally followed by `.\d*`, with at least one digit overall. -/
def decimalMantissaOk (m : List Char) : Bool :=
  match pySplit '.' m with
  | [i] => ¬ i.isEmpty && i.all Char.isDigit
  | [i, f] => i.all Char.isDigit && f.all Char.isDigit && (¬ i.isEmpty || ¬ f.isEmpty)
  | _ => false

/-- Whether Python `Decimal(s)` succeeds. `Decimal` first strips surrounding
whitespace and removes underscores anywhere, then matches (case-insensitive)
an optionally signed digit mantissa with an optional `E`-exponent, or
`inf`/`infinity`, or `nan`/`snan` with an optional digit payload. -/
def pyDecimalOk (s : String) : Bool :=
  let t := dropSign ((pyStripChars s.data).filter (fun c => c ≠ '_'))
  let low := t.map Char.toLower
  if low = "inf".data || low = "infinity".data then true
  else
    match low with
    | 'n' :: 'a' :: 'n' :: payload => payload.all Char.isDigit
    | 's' :: 'n' :: 'a' :: 'n' :: payload => payload.all Char.isDigit
    | _ =>
      match pySplit 'e' low with
      | [m] => decimalMantissaOk m
      | [m, ex] =>
        decimalMantissaOk m && ¬ (dropSign ex).isEmpty && (dropSign ex).all Char.isDigit
      | _ => false

/-- Python `str.isdigit()` restricted to ASCII input: non-empty and all
characters decimal digits. -/
def pyIsDigit (s : String) : Bool :=
  pyIsDigitChars s.data

/-- Python format spec `{n:04d}` for a non-negative value: left-pad the
decimal rendering with zeros to a minimum width of four. -/
def pad4 (n : Nat) : String :=
  let s := toString n
  String.mk (List.replicate (4 - s.length) '0') ++ s

/-- Calendar date, standing in for Python `datetime.date`. -/
structure PyDate where
  year : Nat
  month : Nat
  day : Nat
deriving DecidableEq, Repr

/-- Gregorian leap-year rule, as used by `datetime`. -/
def isLeap (y : Nat) : Bool :=
  (y % 4 = 0 && y % 100 ≠ 0) || y % 400 = 0

/-- Number of days in a month, as validated by the `datetime` constructor. -/
def daysInMonth (y m : Nat) : Nat :=
  if m = 2 then (if isLeap y then 29 else 28)
  else if m = 4 || m = 6 || m = 9 || m = 11 then 30
  else 31

/-- Python `datetime.strptime(s, "%Y-%m-%d").date()`: four-digit year, one- or
two-digit month and day, full-string match, then calendar validation by the
`datetime` constructor. Returns `none` exactly when `ValueError` is raised. -/
def parseDateYMD (s : String) : Option PyDate :=
  match pySplit '-' s.data with
  | [ys, ms, ds] =>
    if ys.length = 4 && ys.all Char.isDigit
        && (ms.length = 1 || ms.length = 2) && ms.all Char.isDigit
        && (ds.length = 1 || ds.length = 2) && ds.all Char.isDigit then
      let y := charsToNat ys
      let m := charsToNat ms
      let d := charsToNat ds
      if 1 ≤ y && 1 ≤ m && m ≤ 12 && 1 ≤ d && d ≤ daysInMonth y m then
        some ⟨y, m, d⟩
      else none
    else none
  | _ => none

/-- Row of the `locations` table (`app/models.py`), restricted to the columns
the embedded logic reads. -/
structure Location where
  id : Nat
  name : String
  code : Option String := none
deriving DecidableEq, Repr

/-- Row of the `categories` table; the `code` column is added by the
categories module and read by the tag generator. -/
structure Category where
  id : Nat
  name : String
  code : Option String := none
deriving DecidableEq, Repr

/-- Row of the `subcategories` table. -/
structure SubCategory where
  id : Nat
  name : String
  category_id : Nat
deriving DecidableEq, Repr

/-- Row of the `vendors` table, restricted to the columns the embedded logic
reads or writes. -/
structure Vendor where
  id : Nat
  name : String
  code : Option String := none
  contact_phone : Option String := none
  address : Option String := none
deriving DecidableEq, Repr

/-- Row of the `asset_tag_sequences` table (migration `e1b4d8d2ad7a`); the
surrogate `id` column is irrelevant to the logic and omitted, the pair
`(office_code, year)` is the unique key. -/
structure AssetTagSequence where
  office_code : String
  year : Nat
  last_seq : Nat
deriving DecidableEq, Repr

/-- Row of the `assets` table: the columns of `app/models.py` plus the
assignment and repair columns added by later migrations and written by the
asset routes. Field defaults mirror the column defaults used by the
`Asset(...)` constructor (unset nullable columns are `None`, `status`
defaults to `in_use`). -/
structure Asset where
  id : Nat
  asset_tag : Option String := none
  name : String
  description : Option String := none
  serial_number : Option String := none
  status : String := "in_use"
  purchase_date : Option PyDate := none
  warranty_expiry_date : Option PyDate := none
  cost : Option String := none
  category_id : Option Nat := none
  subcategory_id : Option Nat := none
  location_id : Option Nat := none
  vendor_id : Option Nat := none
  notes : Option String := none
  assigned_to : Option String := none
  assigned_department : Option String := none
  assigned_email : Option String := none
  assigned_at : Option PyDate := none
  repair_opened_at : Option PyDate := none
  repair_closed_at : Option PyDate := none
  repair_vendor : Option String := none
  repair_vendor_phone : Option String := none
  repair_vendor_address : Option String := none
  repair_reference : Option String := none
  repair_notes : Option String := none
  repair_cost : Option String := none
deriving DecidableEq, Repr

/-- Row of the `asset_events` table; `created_at` is omitted (events are kept
in insertion order in a list instead). -/
structure AssetEvent where
  asset_id : Nat
  event_type : String
  note : Option String := none
  from_status : Option String := none
  to_status : Option String := none
  from_location_id : Option Nat := none
  to_location_id : Option Nat := none
  performed_by_id : Option Nat := none
deriving DecidableEq, Repr

/-- The relational store: one list per table, each list in insertion order. -/
structure Db where
  assets : List Asset := []
  vendors : List Vendor := []
  categories : List Category := []
  locations : List Location := []
  subcategories : List SubCategory := []
  sequences : List AssetTagSequence := []
  events : List AssetEvent := []
deriving DecidableEq, Repr

/-!
Tag sequencer (`_max_existing_seq_for_office_year`, `_get_or_create_sequence`
and `generate_asset_tag` in `app/assets/routes.py`).
-/

/-- Per-tag check of the scan loop in `_max_existing_seq_for_office_year`:
split on `-`, require at least five parts, require the first part to be the
company constant, the second the office code and the second-to-last the year,
then parse the last part as an integer. The SQL `LIKE
"ESS-{office}-%-{year}-%"` prefilter only narrows the scan to a superset of
the tags this in-loop sanity check accepts, so it is dropped here. -/
def tagSeqFor (office_code : String) (year : Nat) (tag : String) : Option Nat :=
  let parts := pySplit '-' tag.data
  if parts.length < 5 then none
  else if parts.getD 0 [] = "ESS".data && parts.getD 1 [] = office_code.data
      && parts.getD (parts.length - 2) [] = (toString year).data then
    pyInt? (String.mk (parts.getD (parts.length - 1) []))
  else none

/-- Maximum sequence number parsed from existing asset tags for a given
office/year (`_max_existing_seq_for_office_year`); `None` tags behave as the
empty string, as in the source's `(tag or "")`. -/
def _max_existing_seq_for_office_year (assets : List Asset) (office_code : String)
    (year : Nat) : Nat :=
  assets.foldl
    (fun max_seq a =>
      match tagSeqFor office_code year (a.asset_tag.getD "") with
      | some seq_val => if seq_val > max_seq then seq_val else max_seq
      | none => max_seq)
    0

/-- Lookup of the sequence row for a key, mirroring
`AssetTagSequence.query.filter_by(office_code=..., year=...).first()`. -/
def findSeq (seqs : List AssetTagSequence) (office_code : String) (year : Nat) :
    Option AssetTagSequence :=
  seqs.find? (fun s => s.office_code == office_code && s.year == year)

/-- Update of the `last_seq` column of the row(s) matching a key. -/
def setSeq (seqs : List AssetTagSequence) (office_code : String) (year : Nat)
    (v : Nat) : List AssetTagSequence :=
  seqs.map (fun s =>
    if s.office_code == office_code && s.year == year then { s with last_seq := v }
    else s)

/-- Stored counter value for a key; `0` when no row exists yet. -/
def lastSeqIn (seqs : List AssetTagSequence) (office_code : String) (year : Nat) : Nat :=
  ((findSeq seqs office_code year).map AssetTagSequence.last_seq).getD 0

/-- Embedding of `_get_or_create_sequence`: fetch or create the counter row
for `(office_code, year)`, initializing a fresh row from the scan of existing
tags and raising a stale row to the scanned maximum. The `with_for_update`
row lock and the missing-table fallback are concurrency/bootstrap mechanics
with no effect on the sequential semantics modelled here. -/
def _get_or_create_sequence (db : Db) (office_code : String) (year : Nat) :
    AssetTagSequence × Db :=
  match findSeq db.sequences office_code year with
  | none =>
    let seq : AssetTagSequence := { office_code := office_code, year := year, last_seq := 0 }
    let existing_max := _max_existing_seq_for_office_year db.assets office_code year
    let seq := if existing_max > 0 then { seq with last_seq := existing_max } else seq
    (seq, { db with sequences := db.sequences ++ [seq] })
  | some seq =>
    let existing_max := _max_existing_seq_for_office_year db.assets office_code year
    if existing_max > seq.last_seq then
      let seq := { seq with last_seq := existing_max }
      (seq, { db with sequences := setSeq db.sequences office_code year existing_max })
    else (seq, db)

/-- The sequence number the next successful `generate_asset_tag` call for
this office/year will embed in its tag: the post-fetch counter plus one. -/
def nextIssuedSeq (db : Db) (office_code : String) (year : Nat) : Nat :=
  (_get_or_create_sequence db office_code year).1.last_seq + 1

/-- Embedding of `generate_asset_tag`: validate the location and category
codes, bump the per-office/year counter and format the composite tag. The
`ValueError` raises are the `Except.error` branch. -/
def generate_asset_tag (db : Db) (location : Location) (category : Category)
    (year : Nat) : Except String (String × Db) :=
  let office_code := pyUpper (pyStrip (location.code.getD ""))
  let cat_code := pyUpper (pyStrip (category.code.getD ""))
  if office_code = "" then .error "Location.code missing (expected M/P)."
  else if cat_code = "" then .error "Category.code missing (expected COMP/MONI etc.)."
  else
    let fetched := _get_or_create_sequence db office_code year
    let next_seq := fetched.1.last_seq + 1
    let db := { fetched.2 with sequences := setSeq fetched.2.sequences office_code year next_seq }
    let year_str := toString year
    .ok ("ESS-" ++ office_code ++ "-" ++ cat_code ++ "-" ++ year_str ++ "-" ++ pad4 next_seq, db)

/-- Tag component of a `generate_asset_tag` call, with the updated store
projected away. -/
def mintedTag (db : Db) (location : Location) (category : Category) (year : Nat) :
    Except String String :=
  (generate_asset_tag db location category year).map Prod.fst

/-- Office code a location contributes to a tag. -/
def officeCodeOf (location : Location) : String :=
  pyUpper (pyStrip (location.code.getD ""))

/-- Category code a category contributes to a tag. -/
def catCodeOf (category : Category) : String :=
  pyUpper (pyStrip (category.code.getD ""))

/-!
Asset lifecycle controller: the state-changing request handlers of
`app/assets/routes.py`, each embedded as a pure function from the current
rows and the submitted form data to either a rejection (flash + redirect,
nothing persisted) or the mutated rows plus the single logged event.
-/

/-- Python format spec `{n:03d}`. -/
def pad3 (n : Nat) : String :=
  let s := toString n
  String.mk (List.replicate (3 - s.length) '0') ++ s

/-- Next value of an auto-increment surrogate key, for rows the embedded
logic inserts itself. -/
def nextId (ids : List Nat) : Nat :=
  ids.foldl max 0 + 1

/-- Embedding of `_next_vendor_code_value`: next `V###` vendor code computed
from the existing vendor codes without mutating anything. -/
def _next_vendor_code_value (vendors : List Vendor) : String :=
  let max_num := vendors.foldl
    (fun max_num v =>
      match v.code with
      | none => max_num
      | some code =>
        if code = "" then max_num
        else
          let code_upper := pyStrip (pyUpper code)
          match code_upper.data with
          | 'V' :: rest =>
            if pyIsDigitChars rest then max max_num (charsToNat rest) else max_num
          | _ => max_num)
    0
  "V" ++ pad3 (max_num + 1)

/-- Embedding of `_normalize_id`: the `0` sentinel of the select widgets
becomes `None`. -/
def _normalize_id (value : Nat) : Option Nat :=
  if value ≠ 0 then some value else none

/-- Data carried by a submitted `AssetForm` (`app/assets/forms.py`). Select
fields carry the coerced integer with `0` for the placeholder choice; date
and decimal fields carry the already-validated optional value. -/
structure AssetFormData where
  asset_tag : String := ""
  name : String
  description : String := ""
  serial_number : String := ""
  status : String
  category_id : Nat := 0
  subcategory_id : Nat := 0
  location_id : Nat := 0
  vendor_id : Nat := 0
  purchase_date : Option PyDate := none
  warranty_expiry_date : Option PyDate := none
  cost : Option String := none
  notes : String := ""
deriving DecidableEq, Repr

/-- Conditions under which `form.validate_on_submit()` succeeds for an
`AssetForm`: `DataRequired` on the name (non-blank), the status drawn from
the form's fixed choice list, and the `Length` caps on the text inputs. -/
def assetFormValid (f : AssetFormData) : Bool :=
  pyStrip f.name ≠ "" && f.name.length ≤ 150
    && ["in_use", "in_stock", "under_repair", "retired", "disposed"].contains f.status
    && f.asset_tag.length ≤ 100 && f.serial_number.length ≤ 150

/-- Outcome of one lifecycle request handler: a rejection redirects with a
flash message and persists nothing; success yields the updated asset row and
the one event row appended by `log_asset_event`. -/
inductive StepOutcome where
  | rejected (message : String)
  | ok (asset : Asset) (event : AssetEvent)
deriving DecidableEq, Repr

/-- Outcome of `start_repair`, which may additionally insert a new vendor
row in the same transaction. -/
inductive RepairStartOutcome where
  | rejected (message : String)
  | ok (newVendor : Option Vendor) (asset : Asset) (event : AssetEvent)
deriving DecidableEq, Repr

/-- Embedding of the `create_asset` handler on a validated form: resolve the
location and category, mint a tag, insert the asset row and log the
`created` event. Both flash-and-rerender failure paths are `Except.error`. -/
def create_asset (db : Db) (f : AssetFormData) (today : PyDate) (uid : Option Nat) :
    Except String (Asset × AssetEvent × Db) :=
  let location := (_normalize_id f.location_id).bind
    (fun i => db.locations.find? (fun l => l.id == i))
  let category := (_normalize_id f.category_id).bind
    (fun i => db.categories.find? (fun c => c.id == i))
  match location, category with
  | some location, some category =>
    match generate_asset_tag db location category today.year with
    | .error exc => .error exc
    | .ok (asset_tag, db) =>
      let asset : Asset :=
        { id := nextId (db.assets.map Asset.id)
          asset_tag := some asset_tag
          name := f.name
          description := strOrNone f.description
          serial_number := strOrNone f.serial_number
          status := f.status
          purchase_date := f.purchase_date
          warranty_expiry_date := f.warranty_expiry_date
          cost := f.cost
          category_id := _normalize_id f.category_id
          subcategory_id := _normalize_id f.subcategory_id
          location_id := _normalize_id f.location_id
          vendor_id := _normalize_id f.vendor_id
          notes := strOrNone f.notes }
      let ev : AssetEvent :=
        { asset_id := asset.id
          event_type := "created"
          note := some ("Asset created (" ++ asset_tag ++ ")")
          to_status := some asset.status
          to_location_id := asset.location_id
          performed_by_id := uid }
      .ok (asset, ev, { db with assets := db.assets ++ [asset], events := db.events ++ [ev] })
  | _, _ => .error "Location and Category are required to generate Asset Tag."

/-- Embedding of the `edit_asset` handler on a validated form: overwrite the
editable columns in place; `asset_tag` is never assigned and no event is
logged. -/
def edit_asset (asset : Asset) (f : AssetFormData) : Asset :=
  { asset with
    name := f.name
    description := strOrNone f.description
    serial_number := strOrNone f.serial_number
    status := f.status
    category_id := _normalize_id f.category_id
    subcategory_id := _normalize_id f.subcategory_id
    location_id := _normalize_id f.location_id
    vendor_id := _normalize_id f.vendor_id
    purchase_date := f.purchase_date
    warranty_expiry_date := f.warranty_expiry_date
    cost := f.cost
    notes := strOrNone f.notes }

/-- Embedding of the `dispose_asset` handler. -/
def dispose_asset (asset : Asset) (uid : Option Nat) : StepOutcome :=
  if asset.status = "disposed" then .rejected "Asset is already disposed."
  else
    let old_status := asset.status
    let old_location_id := asset.location_id
    let asset := { asset with status := "disposed" }
    .ok asset
      { asset_id := asset.id
        event_type := "dispose"
        note := some "Asset marked as disposed"
        from_status := some old_status
        to_status := some asset.status
        from_location_id := old_location_id
        to_location_id := asset.location_id
        performed_by_id := uid }

/-- Embedding of the `assign_asset` handler. -/
def assign_asset (asset : Asset) (assigned_to_raw assigned_department_raw
    assigned_email_raw : String) (today : PyDate) (uid : Option Nat) : StepOutcome :=
  if ["disposed", "repair", "missing", "damaged"].contains asset.status then
    .rejected "Cannot assign an asset that is disposed, under repair, missing, or damaged."
  else
    let assigned_to := pyStrip assigned_to_raw
    let assigned_department := pyStrip assigned_department_raw
    let assigned_email := pyStrip assigned_email_raw
    if assigned_to = "" then .rejected "Assignee name is required to assign an asset."
    else
      let old_status := asset.status
      let old_location_id := asset.location_id
      let asset := { asset with
        assigned_to := some assigned_to
        assigned_department := strOrNone assigned_department
        assigned_email := strOrNone assigned_email
        assigned_at := some today }
      let asset :=
        if ["in_stock", "in_use"].contains asset.status then { asset with status := "assigned" }
        else asset
      let note_parts := ["Assigned to " ++ assigned_to]
        ++ (if assigned_department ≠ "" then ["(" ++ assigned_department ++ ")"] else [])
        ++ (if assigned_email ≠ "" then ["<" ++ assigned_email ++ ">"] else [])
      .ok asset
        { asset_id := asset.id
          event_type := "assign"
          note := some (pyJoin " " note_parts)
          from_status := some old_status
          to_status := some asset.status
          from_location_id := old_location_id
          to_location_id := asset.location_id
          performed_by_id := uid }

/-- Embedding of the `unassign_asset` handler; the emptiness tests follow
Python truthiness on the nullable columns. -/
def unassign_asset (asset : Asset) (uid : Option Nat) : StepOutcome :=
  if optStrFalsy asset.assigned_to && asset.assigned_at = none then
    .rejected "This asset is not currently assigned."
  else
    let old_status := asset.status
    let old_location_id := asset.location_id
    let previous_assignee := asset.assigned_to
    let asset := { asset with
      assigned_to := none
      assigned_department := none
      assigned_email := none
      assigned_at := none }
    let asset :=
      if ["assigned", "in_use"].contains asset.status then { asset with status := "in_stock" }
      else asset
    let note :=
      if optStrFalsy previous_assignee then "Unassigned"
      else "Unassigned from " ++ previous_assignee.getD ""
    .ok asset
      { asset_id := asset.id
        event_type := "unassign"
        note := some note
        from_status := some old_status
        to_status := some asset.status
        from_location_id := old_location_id
        to_location_id := asset.location_id
        performed_by_id := uid }

/-- Embedding of the `mark_damaged` handler. -/
def mark_damaged (asset : Asset) (uid : Option Nat) : StepOutcome :=
  let old_status := asset.status
  if asset.status = "disposed" then .rejected "Disposed assets cannot be marked as damaged."
  else
    let asset := { asset with status := "damaged" }
    .ok asset
      { asset_id := asset.id
        event_type := "damaged"
        note := some "Asset marked as damaged."
        from_status := some old_status
        to_status := some asset.status
        from_location_id := asset.location_id
        to_location_id := asset.location_id
        performed_by_id := uid }

/-- Embedding of the `mark_missing` handler. -/
def mark_missing (asset : Asset) (uid : Option Nat) : StepOutcome :=
  let old_status := asset.status
  if asset.status = "disposed" then .rejected "Disposed assets cannot be marked as missing."
  else
    let asset := { asset with status := "missing" }
    .ok asset
      { asset_id := asset.id
        event_type := "missing"
        note := some "Asset marked as missing."
        from_status := some old_status
        to_status := some asset.status
        from_location_id := asset.location_id
        to_location_id := asset.location_id
        performed_by_id := uid }

/-- Embedding of the POST branch of the `move_asset` handler. -/
def move_asset (asset : Asset) (new_location_id_raw reason_raw reference_raw : String)
    (uid : Option Nat) : StepOutcome :=
  let new_location_id := pyStrip new_location_id_raw
  let reason := pyStrip reason_raw
  let reference := pyStrip reference_raw
  if ¬ pyIsDigit new_location_id then .rejected "Please select a valid location."
  else
    let new_location_id_int := charsToNat new_location_id.data
    if asset.location_id = some new_location_id_int then
      .rejected "Asset is already in this location."
    else
      let old_location_id := asset.location_id
      let asset := { asset with location_id := some new_location_id_int }
      let note_parts := ["Moved from LocationID " ++ optNatRepr old_location_id
          ++ " to " ++ toString new_location_id_int]
        ++ (if reason ≠ "" then ["Reason: " ++ reason] else [])
        ++ (if reference ≠ "" then ["Ref: " ++ reference] else [])
      .ok asset
        { asset_id := asset.id
          event_type := "move"
          note := some (pyJoin " | " note_parts)
          from_status := some asset.status
          to_status := some asset.status
          from_location_id := old_location_id
          to_location_id := some new_location_id_int
          performed_by_id := uid }

/-- Python `x or None` where `x` is already a nullable string. -/
def optOrNone (o : Option String) : Option String :=
  o.bind strOrNone

/-- Shared tail of `start_repair` after the vendor is resolved: record the
repair metadata, clear any active assignment, switch the status to `repair`
and log the `repair_start` event. -/
def start_repair_apply (asset : Asset) (newVendor : Option Vendor)
    (resolved_vendor_name : String)
    (resolved_vendor_phone resolved_vendor_address : Option String)
    (repair_reference repair_notes : String) (today : PyDate) (uid : Option Nat) :
    RepairStartOutcome :=
  let old_status := asset.status
  let old_location_id := asset.location_id
  let asset := { asset with
    repair_opened_at := some today
    repair_vendor := strOrNone resolved_vendor_name
    repair_vendor_phone := optOrNone resolved_vendor_phone
    repair_vendor_address := optOrNone resolved_vendor_address
    repair_reference := strOrNone repair_reference
    repair_notes := strOrNone repair_notes
    status := "repair" }
  let asset :=
    if ¬ optStrFalsy asset.assigned_to then
      { asset with
        assigned_to := none
        assigned_department := none
        assigned_email := none
        assigned_at := none }
    else asset
  let note_parts := ["Sent to repair"]
    ++ (if resolved_vendor_name ≠ "" then ["Vendor: " ++ resolved_vendor_name] else [])
    ++ (if ¬ optStrFalsy resolved_vendor_phone then
          ["Phone: " ++ resolved_vendor_phone.getD ""] else [])
    ++ (if ¬ optStrFalsy resolved_vendor_address then
          ["Address: " ++ resolved_vendor_address.getD ""] else [])
    ++ (if repair_reference ≠ "" then ["Ref: " ++ repair_reference] else [])
    ++ (if repair_notes ≠ "" then ["Notes: " ++ repair_notes] else [])
  .ok newVendor asset
    { asset_id := asset.id
      event_type := "repair_start"
      note := some (pyJoin " | " note_parts)
      from_status := some old_status
      to_status := some asset.status
      from_location_id := old_location_id
      to_location_id := asset.location_id
      performed_by_id := uid }

/-- Embedding of the `start_repair` handler (POST branch). `vendors` is the
vendors table; the asset's related vendor is resolved through its
`vendor_id`. A freshly created repair vendor is returned for insertion in
the same transaction. -/
def start_repair (vendors : List Vendor) (asset : Asset)
    (vendor_option repair_vendor_raw repair_vendor_phone_raw repair_vendor_address_raw
      repair_reference_raw repair_notes_raw : String)
    (today : PyDate) (uid : Option Nat) : RepairStartOutcome :=
  if ["disposed", "missing"].contains asset.status then
    .rejected "Cannot send a disposed or missing asset to repair."
  else if asset.status = "repair" then
    .rejected "Asset is already under repair."
  else
    let repair_vendor := pyStrip repair_vendor_raw
    let repair_vendor_phone := pyStrip repair_vendor_phone_raw
    let repair_vendor_address := pyStrip repair_vendor_address_raw
    let repair_reference := pyStrip repair_reference_raw
    let repair_notes := pyStrip repair_notes_raw
    let asset_vendor := asset.vendor_id.bind (fun i => vendors.find? (fun v => v.id == i))
    let chosen_vendor : Option Vendor :=
      if vendor_option = "asset_vendor" && asset_vendor.isSome then asset_vendor
      else if repair_vendor ≠ "" then
        vendors.find? (fun v => pyLower v.name == pyLower repair_vendor)
      else none
    match chosen_vendor with
    | some chosen =>
      start_repair_apply asset none chosen.name
        (pyOrStr chosen.contact_phone repair_vendor_phone)
        (pyOrStr chosen.address repair_vendor_address)
        repair_reference repair_notes today uid
    | none =>
      if repair_vendor = "" then
        .rejected "Please provide a repair vendor or service center."
      else if repair_vendor_phone = "" || repair_vendor_address = "" then
        .rejected "Please add vendor number and address for a new repair vendor."
      else
        let new_vendor : Vendor :=
          { id := nextId (vendors.map Vendor.id)
            name := repair_vendor
            contact_phone := some repair_vendor_phone
            address := some repair_vendor_address
            code := some (_next_vendor_code_value vendors) }
        start_repair_apply asset (some new_vendor) new_vendor.name
          new_vendor.contact_phone new_vendor.address
          repair_reference repair_notes today uid

/-- Embedding of the `complete_repair` handler (POST branch). -/
def complete_repair (asset : Asset) (outcome_raw repair_cost_raw repair_notes_raw : String)
    (today : PyDate) (uid : Option Nat) : StepOutcome :=
  if asset.status ≠ "repair" then
    .rejected "This asset is not currently under repair."
  else
    let outcome := pyStrip outcome_raw
    let repair_cost := pyStrip repair_cost_raw
    let repair_notes := pyStrip repair_notes_raw
    let old_status := asset.status
    let old_location_id := asset.location_id
    if repair_cost ≠ "" && ¬ pyFloatOk repair_cost then
      .rejected "Repair cost must be a number."
    else
      let asset := { asset with repair_closed_at := some today }
      let asset :=
        if repair_cost ≠ "" then { asset with repair_cost := some repair_cost } else asset
      let asset := if repair_notes ≠ "" then { asset with repair_notes := some repair_notes } else asset
      let asset :=
        { asset with status := if outcome = "disposed" then "disposed" else "in_stock" }
      let note_parts := ["Repair completed"]
        ++ [if outcome = "disposed" then "Outcome: Asset disposed after repair"
            else "Outcome: Returned to stock"]
        ++ (if repair_cost ≠ "" then ["Cost: " ++ repair_cost] else [])
        ++ (if repair_notes ≠ "" then ["Notes: " ++ repair_notes] else [])
      .ok asset
        { asset_id := asset.id
          event_type := "repair_end"
          note := some (pyJoin " | " note_parts)
          from_status := some old_status
          to_status := some asset.status
          from_location_id := old_location_id
          to_location_id := asset.location_id
          performed_by_id := uid }

/-- Per-asset view of the store while an asset lives through its lifecycle:
the asset row, the vendors table and this asset's event rows in insertion
order. -/
structure AssetState where
  asset : Asset
  vendors : List Vendor := []
  events : List AssetEvent := []
deriving DecidableEq, Repr

/-- One state-changing request against an existing asset, carrying the raw
form data the corresponding handler reads. -/
inductive Action where
  | assign (assigned_to assigned_department assigned_email : String) (today : PyDate)
  | unassign
  | dispose
  | markDamaged
  | markMissing
  | startRepair (vendor_option repair_vendor repair_vendor_phone repair_vendor_address
      repair_reference repair_notes : String) (today : PyDate)
  | completeRepair (outcome repair_cost repair_notes : String) (today : PyDate)
  | move (new_location_id reason reference : String)
  | edit (f : AssetFormData)
deriving Repr

/-- Dispatch one request against the per-asset state: a rejected request
leaves the store untouched (the handler redirects before any session write),
a successful one commits the mutated row together with the one logged event
(and, for `start_repair`, a possibly created vendor). An `edit` commits only
when the form validates, and logs nothing. -/
def stepAsset (s : AssetState) (uid : Option Nat) (act : Action) : AssetState :=
  match act with
  | .assign a d e today =>
    match assign_asset s.asset a d e today uid with
    | .rejected _ => s
    | .ok asset ev => { s with asset := asset, events := s.events ++ [ev] }
  | .unassign =>
    match unassign_asset s.asset uid with
    | .rejected _ => s
    | .ok asset ev => { s with asset := asset, events := s.events ++ [ev] }
  | .dispose =>
    match dispose_asset s.asset uid with
    | .rejected _ => s
    | .ok asset ev => { s with asset := asset, events := s.events ++ [ev] }
  | .markDamaged =>
    match mark_damaged s.asset uid with
    | .rejected _ => s
    | .ok asset ev => { s with asset := asset, events := s.events ++ [ev] }
  | .markMissing =>
    match mark_missing s.asset uid with
    | .rejected _ => s
    | .ok asset ev => { s with asset := asset, events := s.events ++ [ev] }
  | .startRepair vo rv rp ra rr rn today =>
    match start_repair s.vendors s.asset vo rv rp ra rr rn today uid with
    | .rejected _ => s
    | .ok newV asset ev =>
      { asset := asset, vendors := s.vendors ++ newV.toList, events := s.events ++ [ev] }
  | .completeRepair o c n today =>
    match complete_repair s.asset o c n today uid with
    | .rejected _ => s
    | .ok asset ev => { s with asset := asset, events := s.events ++ [ev] }
  | .move l r ref =>
    match move_asset s.asset l r ref uid with
    | .rejected _ => s
    | .ok asset ev => { s with asset := asset, events := s.events ++ [ev] }
  | .edit f =>
    if assetFormValid f then { s with asset := edit_asset s.asset f } else s

/-- States an asset can be observed in: freshly created through
`create_asset`, or the result of any later request handled by `stepAsset`. -/
inductive Reachable : AssetState → Prop where
  | created (db : Db) (f : AssetFormData) (today : PyDate) (uid : Option Nat)
      (a : Asset) (ev : AssetEvent) (db' : Db) :
      create_asset db f today uid = .ok (a, ev, db') →
      Reachable { asset := a, vendors := db'.vendors, events := [ev] }
  | step (s : AssetState) (uid : Option Nat) (act : Action) :
      Reachable s → Reachable (stepAsset s uid act)

/-!
CSV import (`import_assets` in `app/assets/routes.py`): rows are validated
and staged one at a time into the session; any accumulated error makes the
handler roll the whole session back.
-/

/-- ASCII single-quote character, used by the import error messages. -/
def sq : String := String.singleton (Char.ofNat 39)

/-- One row of the uploaded CSV as produced by `csv.DictReader`: a missing
column reads as `None`. -/
structure CsvRow where
  name : Option String := none
  status : Option String := none
  category_code : Option String := none
  subcategory_name : Option String := none
  location_code : Option String := none
  vendor_name : Option String := none
  asset_tag : Option String := none
  serial_number : Option String := none
  purchase_date : Option String := none
  warranty_expiry_date : Option String := none
  cost : Option String := none
  description : Option String := none
  notes : Option String := none
deriving DecidableEq, Repr

/-- The statuses accepted by the importer (`ALLOWED_STATUSES`). -/
def ALLOWED_STATUSES : List String :=
  ["in_stock", "assigned", "repair", "damaged", "missing", "disposed", "in_use"]

/-- The uncommitted session while an import is being processed: the staged
store, the accumulated error messages and the created-row count. -/
structure ImportState where
  db : Db
  errors : List String := []
  created : Nat := 0
deriving DecidableEq, Repr

/-- Stage one CSV row into the session, mirroring the loop body of
`import_assets`: every `errors.append(...)` followed by `continue` becomes
an early return that reports the appended message(s) and keeps whatever the
row already flushed (a created vendor survives in the session even when a
later check on the same row fails; the final rollback discards it with
everything else). The result is the session store after the row, the error
messages the row appended, and how many assets it created (0 or 1). -/
def importRowStep (db : Db) (row_num : Nat) (row : CsvRow) (today : PyDate)
    (uid : Option Nat) : Db × List String × Nat :=
  let rowPrefix := "Row " ++ toString row_num ++ ": "
  let name := pyStrip (row.name.getD "")
  let status0 := pyLower (pyStrip (row.status.getD ""))
  let status1 := if status0 = "" then "in_stock" else status0
  let status := if status1 = "in_use" then "assigned" else status1
  let category_code := pyUpper (pyStrip (row.category_code.getD ""))
  let subcategory_name := pyStrip (row.subcategory_name.getD "")
  let location_code := pyUpper (pyStrip (row.location_code.getD ""))
  let vendor_name := pyStrip (row.vendor_name.getD "")
  let asset_tag := pyStrip (row.asset_tag.getD "")
  let serial_number := pyStrip (row.serial_number.getD "")
  let purchase_date_raw := pyStrip (row.purchase_date.getD "")
  let warranty_date_raw := pyStrip (row.warranty_expiry_date.getD "")
  let cost_raw := pyStrip (row.cost.getD "")
  let description := pyStrip (row.description.getD "")
  let notes := pyStrip (row.notes.getD "")
  if name = "" then
    (db, [rowPrefix ++ "name is required."], 0)
  else if ¬ ALLOWED_STATUSES.contains status then
    (db, [rowPrefix ++ "invalid status " ++ sq ++ status ++ sq ++ "."], 0)
  else if category_code = "" then
    (db, [rowPrefix ++ "category_code is required."], 0)
  else if location_code = "" then
    (db, [rowPrefix ++ "location_code is required."], 0)
  else
    match db.categories.find? (fun c => c.code == some category_code) with
    | none =>
      (db, [rowPrefix ++ "category code " ++ sq ++ category_code ++ sq ++ " not found."], 0)
    | some category =>
      match db.locations.find? (fun l => l.code == some location_code) with
      | none =>
        (db, [rowPrefix ++ "location code " ++ sq ++ location_code ++ sq ++ " not found."], 0)
      | some location =>
        let subcategory? : Option (Option SubCategory) :=
          if subcategory_name ≠ "" then
            match db.subcategories.find?
                (fun sc => sc.name == subcategory_name && sc.category_id == category.id) with
            | none => none
            | some sc => some (some sc)
          else some none
        match subcategory? with
        | none =>
          (db, [rowPrefix ++ "subcategory " ++ sq ++ subcategory_name ++ sq
              ++ " not found under category " ++ sq ++ category_code ++ sq ++ "."], 0)
        | some subcategory =>
          let vendorFound :=
            if vendor_name ≠ "" then db.vendors.find? (fun v => v.name == vendor_name)
            else none
          let newVendor : Option Vendor :=
            if vendor_name ≠ "" && vendorFound.isNone then
              some { id := nextId (db.vendors.map Vendor.id), name := vendor_name }
            else none
          let vendor : Option Vendor := vendorFound <|> newVendor
          let db := { db with vendors := db.vendors ++ newVendor.toList }
          let purchase_date := parseDateYMD purchase_date_raw
          let warranty_date := parseDateYMD warranty_date_raw
          let dateErrors :=
            (if purchase_date_raw ≠ "" && purchase_date.isNone then
              [rowPrefix ++ "purchase_date must be YYYY-MM-DD."] else [])
            ++ (if warranty_date_raw ≠ "" && warranty_date.isNone then
              [rowPrefix ++ "warranty_expiry_date must be YYYY-MM-DD."] else [])
          if dateErrors ≠ [] then (db, dateErrors, 0)
          else if cost_raw ≠ "" && ¬ pyDecimalOk cost_raw then
            (db, [rowPrefix ++ "cost must be a number."], 0)
          else
            let minted : Except String (String × Db) :=
              if asset_tag ≠ "" then
                if (db.assets.find? (fun a => a.asset_tag == some asset_tag)).isSome then
                  .error (rowPrefix ++ "asset_tag " ++ sq ++ asset_tag ++ sq ++ " already exists.")
                else .ok (asset_tag, db)
              else
                match generate_asset_tag db location category today.year with
                | .ok minted => .ok minted
                | .error exc =>
                  .error (rowPrefix ++ "could not generate tag (" ++ exc ++ ").")
            match minted with
            | .error msg => (db, [msg], 0)
            | .ok (tag, db) =>
              let asset : Asset :=
                { id := nextId (db.assets.map Asset.id)
                  asset_tag := some tag
                  name := name
                  status := status
                  category_id := some category.id
                  subcategory_id := subcategory.map SubCategory.id
                  location_id := some location.id
                  vendor_id := vendor.map Vendor.id
                  serial_number := strOrNone serial_number
                  purchase_date := purchase_date
                  warranty_expiry_date := warranty_date
                  cost := if cost_raw ≠ "" then some cost_raw else none
                  description := strOrNone description
                  notes := strOrNone notes }
              let ev : AssetEvent :=
                { asset_id := asset.id
                  event_type := "created"
                  note := some "Asset imported via CSV"
                  to_status := some asset.status
                  to_location_id := asset.location_id
                  performed_by_id := uid }
              ({ db with assets := db.assets ++ [asset], events := db.events ++ [ev] }, [], 1)

/-- Fold one staged row into the running session state. -/
def importRow (st : ImportState) (row_num : Nat) (row : CsvRow) (today : PyDate)
    (uid : Option Nat) : ImportState :=
  { db := (importRowStep st.db row_num row today uid).1
    errors := st.errors ++ (importRowStep st.db row_num row today uid).2.1
    created := st.created + (importRowStep st.db row_num row today uid).2.2 }

/-- Result reported by the import handler. -/
inductive ImportOutcome where
  | headerError (missing : List String)
  | failed (errors : List String)
  | ok (created : Nat)
deriving DecidableEq, Repr

/-- Embedding of the `import_assets` handler on a decoded CSV: check the
required headers, stage every row into a fresh session, then commit the
session only when no row produced an error; otherwise roll back to the
original store. The first data row carries row number 2. -/
def import_assets (db : Db) (headers : List String) (rows : List CsvRow)
    (today : PyDate) (uid : Option Nat) : ImportOutcome × Db :=
  let missing := ["name", "status", "category_code", "location_code"].filter
    (fun h => ¬ headers.contains h)
  if missing ≠ [] then (.headerError missing, db)
  else
    let st := (rows.foldl
      (fun p row => (importRow p.1 p.2 row today uid, p.2 + 1))
      ({ db := db }, 2)).1
    if st.errors ≠ [] then (.failed st.errors, db)
    else (.ok st.created, st.db)

/-!
Operations through which the sequence table and the scanned asset tags can
evolve between two tag issuances, for stating the monotonicity and
uniqueness invariants of the sequencer.
-/

/-- One store-level operation relevant to the sequencer: a bare counter
fetch (the repair scan), a committed tag issuance, or any other committed
request, which may rewrite the assets table arbitrarily but never touches
the `asset_tag_sequences` table. -/
inductive TagOp where
  | fetch (office_code : String) (year : Nat)
  | issue (location : Location) (category : Category) (year : Nat)
  | assetsChanged (assets : List Asset)

/-- Apply one `TagOp`; a failed issuance rolls its transaction back. -/
def applyTagOp (db : Db) (op : TagOp) : Db :=
  match op with
  | .fetch office_code year => (_get_or_create_sequence db office_code year).2
  | .issue location category year =>
    match generate_asset_tag db location category year with
    | .ok (_, db') => db'
    | .error _ => db
  | .assetsChanged assets => { db with assets := assets }

/-- Apply a sequence of `TagOp`s in order. -/
def applyTagOps (db : Db) (ops : List TagOp) : Db :=
  ops.foldl applyTagOp db

/-- The store a successful `generate_asset_tag` call leaves behind: the
fetched counter row bumped to the issued number. -/
def mintedDb (db : Db) (o : String) (y : Nat) : Db :=
  { (_get_or_create_sequence db o y).2 with
    sequences := setSeq (_get_or_create_sequence db o y).2.sequences o y (nextIssuedSeq db o y) }

/-- Statuses the specification calls assigned-like: `assigned` and its legacy
synonym `in_use`. -/
def assignedLike (status : String) : Prop :=
  status = "assigned" ∨ status = "in_use"

instance (status : String) : Decidable (assignedLike status) := by
  unfold assignedLike
  infer_instance

/-- All four assignment columns of an asset are empty. -/
def assignmentCleared (a : Asset) : Prop :=
  a.assigned_to = none ∧ a.assigned_department = none
    ∧ a.assigned_email = none ∧ a.assigned_at = none

instance (a : Asset) : Decidable (assignmentCleared a) := by
  unfold assignmentCleared
  infer_instance

/-- Big-endian decimal digits of a natural number, mirroring the characters
`Nat.repr` produces. -/
def decDigits (n : Nat) : List Char :=
  if h : n < 10 then [Nat.digitChar n]
  else
    have : n / 10 < n := Nat.div_lt_self (by omega) (by omega)
    decDigits (n / 10) ++ [Nat.digitChar (n % 10)]

/-!
Concrete fixtures used to evaluate the verified operations on the scenarios
of the specification: one office `M`, categories `COMP` and `OTHR`, year
2025.
-/

/-- Office `M`. -/
def wLoc : Location := { id := 1, name := "Main Office", code := some "M" }

/-- Category `COMP`. -/
def wCat : Category := { id := 1, name := "Computers", code := some "COMP" }

/-- Category `OTHR`. -/
def wCat2 : Category := { id := 2, name := "Other", code := some "OTHR" }

/-- A store holding only the office and the two categories. -/
def wDb : Db := { locations := [wLoc], categories := [wCat, wCat2] }

/-- A fixed current date. -/
def wDate : PyDate := { year := 2025, month := 6, day := 1 }

/-- A validated creation form for an in-stock asset in office `M`,
category `COMP`. -/
def wForm : AssetFormData :=
  { name := "Laptop", status := "in_stock", location_id := 1, category_id := 1 }

/-- The asset row `create_asset wDb wForm wDate none` inserts. -/
def wAsset : Asset :=
  { id := 1, asset_tag := some "ESS-M-COMP-2025-0001", name := "Laptop",
    status := "in_stock", category_id := some 1, location_id := some 1 }

/-- The `created` event logged for `wAsset`. -/
def wCreatedEvent : AssetEvent :=
  { asset_id := 1, event_type := "created",
    note := some "Asset created (ESS-M-COMP-2025-0001)",
    to_status := some "in_stock", to_location_id := some 1 }

/-- The store after creating `wAsset`. -/
def wDbAfterCreate : Db :=
  { assets := [wAsset], categories := [wCat, wCat2], locations := [wLoc],
    sequences := [{ office_code := "M", year := 2025, last_seq := 1 }],
    events := [wCreatedEvent] }

/-- Per-asset state of the freshly created `wAsset`. -/
def wState : AssetState := { asset := wAsset, events := [wCreatedEvent] }

/-- The same asset while under repair. -/
def wRepairAsset : Asset := { wAsset with status := "repair" }

/-- Per-asset state of `wRepairAsset`. -/
def wRepairState : AssetState := { asset := wRepairAsset }

/-- The same asset once disposed. -/
def wDisposedAsset : Asset := { wAsset with status := "disposed" }

/-- Per-asset state of `wDisposedAsset`. -/
def wDisposedState : AssetState := { asset := wDisposedAsset }

/-- The `dispose` event logged when disposing `wAsset`. -/
def wDisposeEvent : AssetEvent :=
  { asset_id := 1, event_type := "dispose", note := some "Asset marked as disposed",
    from_status := some "in_stock", to_status := some "disposed",
    from_location_id := some 1, to_location_id := some 1 }

/-- A validated edit form that keeps the legacy `in_use` status. -/
def wEditForm : AssetFormData := { name := "Laptop", status := "in_use" }

/-- The store component `generate_asset_tag wDb wLoc wCat 2025` returns. -/
def wGenDb1 : Db :=
  { categories := [wCat, wCat2], locations := [wLoc],
    sequences := [{ office_code := "M", year := 2025, last_seq := 1 }] }

/-- The second asset of the shared-sequence scenario. -/
def wAsset2 : Asset :=
  { id := 2, asset_tag := some "ESS-M-COMP-2025-0002", name := "Laptop",
    status := "in_stock", category_id := some 1, location_id := some 1 }

/-- The store after two creations in office `M`, year 2025. -/
def wDb2 : Db :=
  { assets := [wAsset, wAsset2], categories := [wCat, wCat2], locations := [wLoc],
    sequences := [{ office_code := "M", year := 2025, last_seq := 2 }] }

/-- The store after issuing a second tag with an asset inserted between the
two issuances. -/
def wOpsDb2 : Db :=
  { assets := [wAsset], categories := [wCat, wCat2], locations := [wLoc],
    sequences := [{ office_code := "M", year := 2025, last_seq := 2 }] }

/-- An already-tagged asset with sequence number 7. -/
def wStaleAsset : Asset :=
  { id := 9, asset_tag := some "ESS-M-COMP-2025-0007", name := "Old",
    status := "in_stock" }

/-- A store holding a tagged asset whose counter row lags behind the tags
(stored 3, tags reach 7), exercising the self-healing scan. -/
def wStaleDb : Db :=
  { assets := [wStaleAsset],
    sequences := [{ office_code := "M", year := 2025, last_seq := 3 }] }

/-- The asset while assigned to Jane Doe. -/
def wAssignedAsset : Asset :=
  { wAsset with status := "assigned", assigned_to := some "Jane Doe", assigned_at := some wDate }

/-- The `unassign` event logged when unassigning `wAssignedAsset`. -/
def wUnassignEvent : AssetEvent :=
  { asset_id := 1, event_type := "unassign", note := some "Unassigned from Jane Doe",
    from_status := some "assigned", to_status := some "in_stock",
    from_location_id := some 1, to_location_id := some 1 }

/-- A CSV row that imports cleanly into `wDb`. -/
def wRow : CsvRow :=
  { name := some "Printer", status := some "in_stock",
    category_code := some "comp", location_code := some "m" }

/-- A CSV row rejected by the importer (blank name). -/
def wBadRow : CsvRow :=
  { name := some "  ", status := some "in_stock",
    category_code := some "COMP", location_code := some "M" }

/-- The required import header line. -/
def wHeaders : List String := ["name", "status", "category_code", "location_code"]


/-!
Lifecycle theorems.
-/

/-- Successful `assign_asset` snapshots the statuses around the call. -/
theorem assign_asset_ok_inv (asset : Asset) (x y z : String) (today : PyDate)
    (uid : Option Nat) (a' : Asset) (ev : AssetEvent)
    (h : assign_asset asset x y z today uid = .ok a' ev) :
    ev.from_status = some asset.status ∧ ev.to_status = some a'.status := by
  simp only [assign_asset] at h
  split at h
  · simp at h
  · split at h
    · simp at h
    · simp only [StepOutcome.ok.injEq] at h
      obtain ⟨rfl, rfl⟩ := h
      exact ⟨rfl, by split <;> rfl⟩

/-- Successful `unassign_asset` snapshots the statuses around the call. -/
theorem unassign_asset_ok_inv (asset : Asset) (uid : Option Nat) (a' : Asset) (ev : AssetEvent)
    (h : unassign_asset asset uid = .ok a' ev) :
    ev.from_status = some asset.status ∧ ev.to_status = some a'.status := by
  simp only [unassign_asset] at h
  split at h
  · simp at h
  · simp only [StepOutcome.ok.injEq] at h
    obtain ⟨rfl, rfl⟩ := h
    exact ⟨rfl, by split <;> rfl⟩

/-- Successful `dispose_asset` snapshots the statuses around the call. -/
theorem dispose_asset_ok_inv (asset : Asset) (uid : Option Nat) (a' : Asset) (ev : AssetEvent)
    (h : dispose_asset asset uid = .ok a' ev) :
    ev.from_status = some asset.status ∧ ev.to_status = some a'.status := by
  simp only [dispose_asset] at h
  split at h
  · simp at h
  · simp only [StepOutcome.ok.injEq] at h
    obtain ⟨rfl, rfl⟩ := h
    exact ⟨rfl, rfl⟩

/-- Successful `mark_damaged` snapshots the statuses around the call. -/
theorem mark_damaged_ok_inv (asset : Asset) (uid : Option Nat) (a' : Asset) (ev : AssetEvent)
    (h : mark_damaged asset uid = .ok a' ev) :
    ev.from_status = some asset.status ∧ ev.to_status = some a'.status := by
  simp only [mark_damaged] at h
  split at h
  · simp at h
  · simp only [StepOutcome.ok.injEq] at h
    obtain ⟨rfl, rfl⟩ := h
    exact ⟨rfl, rfl⟩

/-- Successful `mark_missing` snapshots the statuses around the call. -/
theorem mark_missing_ok_inv (asset : Asset) (uid : Option Nat) (a' : Asset) (ev : AssetEvent)
    (h : mark_missing asset uid = .ok a' ev) :
    ev.from_status = some asset.status ∧ ev.to_status = some a'.status := by
  simp only [mark_missing] at h
  split at h
  · simp at h
  · simp only [StepOutcome.ok.injEq] at h
    obtain ⟨rfl, rfl⟩ := h
    exact ⟨rfl, rfl⟩

/-- Successful `move_asset` snapshots the (unchanged) status around the call. -/
theorem move_asset_ok_inv (asset : Asset) (l r rf : String) (uid : Option Nat)
    (a' : Asset) (ev : AssetEvent)
    (h : move_asset asset l r rf uid = .ok a' ev) :
    ev.from_status = some asset.status ∧ ev.to_status = some a'.status := by
  simp only [move_asset] at h
  split at h
  · simp at h
  · split at h
    · simp at h
    · simp only [StepOutcome.ok.injEq] at h
      obtain ⟨rfl, rfl⟩ := h
      exact ⟨rfl, rfl⟩

/-- Successful `start_repair_apply` snapshots the statuses around the call. -/
theorem start_repair_apply_ok_inv (asset : Asset) (nv0 : Option Vendor) (n : String)
    (p adr : Option String) (rr rn : String) (today : PyDate) (uid : Option Nat)
    (nv : Option Vendor) (a' : Asset) (ev : AssetEvent)
    (h : start_repair_apply asset nv0 n p adr rr rn today uid = .ok nv a' ev) :
    ev.from_status = some asset.status ∧ ev.to_status = some a'.status := by
  simp only [start_repair_apply] at h
  split at h <;>
  · simp only [RepairStartOutcome.ok.injEq] at h
    obtain ⟨rfl, rfl, rfl⟩ := h
    exact ⟨rfl, rfl⟩

/-- Successful `start_repair` snapshots the statuses around the call. -/
theorem start_repair_ok_inv (vendors : List Vendor) (asset : Asset)
    (vo rv rp ra rr rn : String) (today : PyDate) (uid : Option Nat)
    (nv : Option Vendor) (a' : Asset) (ev : AssetEvent)
    (h : start_repair vendors asset vo rv rp ra rr rn today uid = .ok nv a' ev) :
    ev.from_status = some asset.status ∧ ev.to_status = some a'.status := by
  simp only [start_repair] at h
  split at h
  · simp at h
  · split at h
    · simp at h
    · split at h
      · exact start_repair_apply_ok_inv _ _ _ _ _ _ _ _ _ _ _ _ h
      · split at h
        · simp at h
        · split at h
          · simp at h
          · exact start_repair_apply_ok_inv _ _ _ _ _ _ _ _ _ _ _ _ h

/-- Successful `complete_repair` snapshots the statuses around the call. -/
theorem complete_repair_ok_inv (asset : Asset) (o c n : String) (today : PyDate)
    (uid : Option Nat) (a' : Asset) (ev : AssetEvent)
    (h : complete_repair asset o c n today uid = .ok a' ev) :
    ev.from_status = some asset.status ∧ ev.to_status = some a'.status := by
  simp only [complete_repair] at h
  split at h
  · simp at h
  · split at h
    · simp at h
    · simp only [StepOutcome.ok.injEq] at h
      obtain ⟨rfl, rfl⟩ := h
      exact ⟨rfl, by split <;> split <;> rfl⟩

/-- The store returned by `_get_or_create_sequence` differs from its input
at most in the sequences table. -/
theorem _get_or_create_sequence_snd_frame (db : Db) (o : String) (y : Nat) :
    ∃ seqs, (_get_or_create_sequence db o y).2 = { db with sequences := seqs } := by
  simp only [_get_or_create_sequence]
  split
  · exact ⟨_, rfl⟩
  · split
    · exact ⟨_, rfl⟩
    · exact ⟨db.sequences, rfl⟩

/-- A successful `generate_asset_tag` call changes at most the sequences
table. -/
theorem generate_asset_tag_ok_frame (db : Db) (location : Location) (category : Category)
    (year : Nat) (t : String) (db' : Db)
    (h : generate_asset_tag db location category year = .ok (t, db')) :
    ∃ seqs, db' = { db with sequences := seqs } := by
  simp only [generate_asset_tag] at h
  split at h
  · simp at h
  · split at h
    · simp at h
    · simp only [Except.ok.injEq, Prod.mk.injEq] at h
      obtain ⟨rfl, rfl⟩ := h
      obtain ⟨s0, hs⟩ := _get_or_create_sequence_snd_frame db (pyUpper (pyStrip (location.code.getD ""))) year
      rw [hs]
      exact ⟨_, rfl⟩

/-- Claim C4: every successful lifecycle transition (create, assign, unassign,
start_repair, complete_repair, dispose, mark_damaged, mark_missing, move)
appends exactly one AssetEvent, whose `from_status` is the asset's status
immediately before the call (`none` for create, which has no prior status)
and whose `to_status` is the asset's status immediately after the call. -/
theorem claimC4 :
    (∀ (db : Db) (f : AssetFormData) (today : PyDate) (uid : Option Nat)
        (a : Asset) (ev : AssetEvent) (db' : Db),
      create_asset db f today uid = .ok (a, ev, db') →
        db'.events = db.events ++ [ev] ∧ ev.from_status = none ∧ ev.to_status = some a.status)
    ∧ (∀ (s : AssetState) (uid : Option Nat) (x y z : String) (today : PyDate)
        (a' : Asset) (ev : AssetEvent),
      assign_asset s.asset x y z today uid = .ok a' ev →
        stepAsset s uid (.assign x y z today) = { s with asset := a', events := s.events ++ [ev] }
        ∧ ev.from_status = some s.asset.status ∧ ev.to_status = some a'.status)
    ∧ (∀ (s : AssetState) (uid : Option Nat) (a' : Asset) (ev : AssetEvent),
      unassign_asset s.asset uid = .ok a' ev →
        stepAsset s uid .unassign = { s with asset := a', events := s.events ++ [ev] }
        ∧ ev.from_status = some s.asset.status ∧ ev.to_status = some a'.status)
    ∧ (∀ (s : AssetState) (uid : Option Nat) (a' : Asset) (ev : AssetEvent),
      dispose_asset s.asset uid = .ok a' ev →
        stepAsset s uid .dispose = { s with asset := a', events := s.events ++ [ev] }
        ∧ ev.from_status = some s.asset.status ∧ ev.to_status = some a'.status)
    ∧ (∀ (s : AssetState) (uid : Option Nat) (a' : Asset) (ev : AssetEvent),
      mark_damaged s.asset uid = .ok a' ev →
        stepAsset s uid .markDamaged = { s with asset := a', events := s.events ++ [ev] }
        ∧ ev.from_status = some s.asset.status ∧ ev.to_status = some a'.status)
    ∧ (∀ (s : AssetState) (uid : Option Nat) (a' : Asset) (ev : AssetEvent),
      mark_missing s.asset uid = .ok a' ev →
        stepAsset s uid .markMissing = { s with asset := a', events := s.events ++ [ev] }
        ∧ ev.from_status = some s.asset.status ∧ ev.to_status = some a'.status)
    ∧ (∀ (s : AssetState) (uid : Option Nat) (vo rv rp ra rr rn : String) (today : PyDate)
        (nv : Option Vendor) (a' : Asset) (ev : AssetEvent),
      start_repair s.vendors s.asset vo rv rp ra rr rn today uid = .ok nv a' ev →
        stepAsset s uid (.startRepair vo rv rp ra rr rn today) =
          { asset := a', vendors := s.vendors ++ nv.toList, events := s.events ++ [ev] }
        ∧ ev.from_status = some s.asset.status ∧ ev.to_status = some a'.status)
    ∧ (∀ (s : AssetState) (uid : Option Nat) (o c n : String) (today : PyDate)
        (a' : Asset) (ev : AssetEvent),
      complete_repair s.asset o c n today uid = .ok a' ev →
        stepAsset s uid (.completeRepair o c n today) = { s with asset := a', events := s.events ++ [ev] }
        ∧ ev.from_status = some s.asset.status ∧ ev.to_status = some a'.status)
    ∧ (∀ (s : AssetState) (uid : Option Nat) (l r rf : String) (a' : Asset) (ev : AssetEvent),
      move_asset s.asset l r rf uid = .ok a' ev →
        stepAsset s uid (.move l r rf) = { s with asset := a', events := s.events ++ [ev] }
        ∧ ev.from_status = some s.asset.status ∧ ev.to_status = some a'.status) := by
  refine ⟨?_, ?_, ?_, ?_, ?_, ?_, ?_, ?_, ?_⟩
  · intro db f today uid a ev db' h
    simp only [create_asset] at h
    split at h
    · rename_i location category hl hc
      cases hgen : generate_asset_tag db location category today.year with
      | error e => rw [hgen] at h; simp at h
      | ok p =>
        obtain ⟨t, db2⟩ := p
        rw [hgen] at h
        simp only [Except.ok.injEq, Prod.mk.injEq] at h
        obtain ⟨rfl, rfl, rfl⟩ := h
        obtain ⟨seqs, rfl⟩ := generate_asset_tag_ok_frame db location category today.year t db2 hgen
        exact ⟨rfl, rfl, rfl⟩
    · simp at h
  · intro s uid x y z today a' ev h
    exact ⟨by simp only [stepAsset, h], assign_asset_ok_inv _ _ _ _ _ _ _ _ h⟩
  · intro s uid a' ev h
    exact ⟨by simp only [stepAsset, h], unassign_asset_ok_inv _ _ _ _ h⟩
  · intro s uid a' ev h
    exact ⟨by simp only [stepAsset, h], dispose_asset_ok_inv _ _ _ _ h⟩
  · intro s uid a' ev h
    exact ⟨by simp only [stepAsset, h], mark_damaged_ok_inv _ _ _ _ h⟩
  · intro s uid a' ev h
    exact ⟨by simp only [stepAsset, h], mark_missing_ok_inv _ _ _ _ h⟩
  · intro s uid vo rv rp ra rr rn today nv a' ev h
    exact ⟨by simp only [stepAsset, h], start_repair_ok_inv _ _ _ _ _ _ _ _ _ _ _ _ _ h⟩
  · intro s uid o c n today a' ev h
    exact ⟨by simp only [stepAsset, h], complete_repair_ok_inv _ _ _ _ _ _ _ _ h⟩
  · intro s uid l r rf a' ev h
    exact ⟨by simp only [stepAsset, h], move_asset_ok_inv _ _ _ _ _ _ _ h⟩

/-- Claim C5: for every asset whose status is disposed, repair, missing or
damaged, an assign request is rejected with a user-facing error, and the
asset (including its assignment fields) and its event log are left
unchanged. -/
theorem claimC5 (s : AssetState) (uid : Option Nat) (x y z : String) (today : PyDate)
    (h : s.asset.status = "disposed" ∨ s.asset.status = "repair"
      ∨ s.asset.status = "missing" ∨ s.asset.status = "damaged") :
    assign_asset s.asset x y z today uid =
      .rejected "Cannot assign an asset that is disposed, under repair, missing, or damaged."
    ∧ stepAsset s uid (.assign x y z today) = s := by
  have hc : (["disposed", "repair", "missing", "damaged"].contains s.asset.status) = true := by
    rcases h with h | h | h | h <;> rw [h] <;> rfl
  have h1 : assign_asset s.asset x y z today uid =
      .rejected "Cannot assign an asset that is disposed, under repair, missing, or damaged." := by
    simp only [assign_asset, hc, if_true]
  exact ⟨h1, by simp only [stepAsset, h1]⟩

theorem claimC5_witness :
    assign_asset wRepairState.asset "Jane" "" "" wDate none =
      .rejected "Cannot assign an asset that is disposed, under repair, missing, or damaged."
    ∧ stepAsset wRepairState none (.assign "Jane" "" "" wDate) = wRepairState :=
  claimC5 wRepairState none "Jane" "" "" wDate (Or.inr (Or.inl rfl))

/-- Claim C6: complete_repair succeeds only when the status is exactly
`repair` - in any other status the call is rejected without any mutation or
event - and a supplied repair cost that does not parse as a number makes the
call fail with a validation error, again without mutation. -/
theorem claimC6 (s : AssetState) (uid : Option Nat) (o c n : String) (today : PyDate) :
    (s.asset.status ≠ "repair" →
      complete_repair s.asset o c n today uid =
        .rejected "This asset is not currently under repair."
      ∧ stepAsset s uid (.completeRepair o c n today) = s)
    ∧ (s.asset.status = "repair" → pyStrip c ≠ "" → pyFloatOk (pyStrip c) = false →
      complete_repair s.asset o c n today uid = .rejected "Repair cost must be a number."
      ∧ stepAsset s uid (.completeRepair o c n today) = s) := by
  constructor
  · intro hne
    have h1 : complete_repair s.asset o c n today uid =
        .rejected "This asset is not currently under repair." := by
      simp only [complete_repair, if_pos hne]
    exact ⟨h1, by simp only [stepAsset, h1]⟩
  · intro hr hcne hcbad
    have h1 : complete_repair s.asset o c n today uid =
        .rejected "Repair cost must be a number." := by
      simp only [complete_repair, hr]
      rw [if_neg (by simp)]
      rw [if_pos (by simp [hcne, hcbad])]
    exact ⟨h1, by simp only [stepAsset, h1]⟩

theorem claimC6_witness :
    (complete_repair wState.asset "x" "" "" wDate none =
        .rejected "This asset is not currently under repair."
      ∧ stepAsset wState none (.completeRepair "x" "" "" wDate) = wState)
    ∧ (complete_repair wRepairState.asset "" "abc" "" wDate none =
        .rejected "Repair cost must be a number."
      ∧ stepAsset wRepairState none (.completeRepair "" "abc" "" wDate) = wRepairState) :=
  ⟨(claimC6 wState none "x" "" "" wDate).1 (by decide),
   (claimC6 wRepairState none "" "abc" "" wDate).2 rfl (by decide) (by decide)⟩

/-- Claim C9: dispose is idempotent at the interface - a dispose on an
already-disposed asset reports the already-disposed condition and changes
nothing, so dispose after dispose equals a single dispose in both state and
event log. -/
theorem claimC9 (s : AssetState) (uid uid' : Option Nat) :
    stepAsset (stepAsset s uid .dispose) uid' .dispose = stepAsset s uid .dispose
    ∧ dispose_asset (stepAsset s uid .dispose).asset uid' =
        .rejected "Asset is already disposed." := by
  cases h1 : dispose_asset s.asset uid with
  | rejected m =>
    have hs : s.asset.status = "disposed" := by
      by_contra hne
      simp only [dispose_asset, if_neg hne] at h1
      exact StepOutcome.noConfusion h1
    have hstep : stepAsset s uid .dispose = s := by
      simp only [stepAsset, h1]
    rw [hstep]
    have h2 : dispose_asset s.asset uid' = .rejected "Asset is already disposed." := by
      simp only [dispose_asset, if_pos hs]
    exact ⟨by simp only [stepAsset, h2], h2⟩
  | ok a' ev =>
    have ha' : a'.status = "disposed" := by
      by_cases hd : s.asset.status = "disposed"
      · simp only [dispose_asset, if_pos hd] at h1
        exact StepOutcome.noConfusion h1
      · simp only [dispose_asset, if_neg hd, StepOutcome.ok.injEq] at h1
        obtain ⟨rfl, rfl⟩ := h1
        rfl
    have hstep : stepAsset s uid .dispose = { s with asset := a', events := s.events ++ [ev] } := by
      simp only [stepAsset, h1]
    rw [hstep]
    have h2 : dispose_asset a' uid' = .rejected "Asset is already disposed." := by
      simp only [dispose_asset, if_pos ha']
    exact ⟨by simp only [stepAsset, h2], h2⟩

/-- Claim C10: a successful edit sets the status directly to the validated
form value with no legality check against the current status (the statement
quantifies over every current status, disposed included), never touches
`asset_tag`, and appends no AssetEvent. -/
theorem claimC10 (asset : Asset) (f : AssetFormData) (s : AssetState) (uid : Option Nat)
    (hv : assetFormValid f = true) (hs : s.asset = asset) :
    (edit_asset asset f).status = f.status
    ∧ (edit_asset asset f).asset_tag = asset.asset_tag
    ∧ stepAsset s uid (.edit f) = { s with asset := edit_asset asset f } := by
  refine ⟨rfl, rfl, ?_⟩
  simp only [stepAsset, hv, if_true, hs]

theorem claimC10_witness :
    (edit_asset wDisposedAsset wEditForm).status = wEditForm.status
    ∧ (edit_asset wDisposedAsset wEditForm).asset_tag = wDisposedAsset.asset_tag
    ∧ stepAsset wDisposedState none (.edit wEditForm) =
        { wDisposedState with asset := edit_asset wDisposedAsset wEditForm } :=
  claimC10 wDisposedAsset wEditForm wDisposedState none (by decide) rfl

/-- Clearing behaviour of `start_repair_apply` on the assignment fields. -/
theorem start_repair_apply_clears (asset : Asset) (nv0 : Option Vendor) (n : String)
    (p adr : Option String) (rr rn : String) (today : PyDate) (uid : Option Nat)
    (nv : Option Vendor) (a' : Asset) (ev : AssetEvent)
    (h : start_repair_apply asset nv0 n p adr rr rn today uid = .ok nv a' ev)
    (hto : optStrFalsy asset.assigned_to = false) :
    assignmentCleared a' := by
  simp only [start_repair_apply, hto, Bool.not_false, if_true,
    RepairStartOutcome.ok.injEq] at h
  obtain ⟨rfl, rfl, rfl⟩ := h
  exact ⟨rfl, rfl, rfl, rfl⟩

/-- Claim C7 (amended): unassign always clears the four assignment fields
and start_repair clears them whenever an assignee is present, but dispose,
mark_damaged and mark_missing leave the assignment fields untouched, so an
asset that leaves an assigned-like state through one of those three keeps
its stale assignment fields. -/
theorem claimC7 :
    (∀ (asset : Asset) (uid : Option Nat) (a' : Asset) (ev : AssetEvent),
      unassign_asset asset uid = .ok a' ev → assignmentCleared a')
    ∧ (∀ (vendors : List Vendor) (asset : Asset) (vo rv rp ra rr rn : String)
        (today : PyDate) (uid : Option Nat) (nv : Option Vendor) (a' : Asset) (ev : AssetEvent),
      start_repair vendors asset vo rv rp ra rr rn today uid = .ok nv a' ev →
      optStrFalsy asset.assigned_to = false → assignmentCleared a')
    ∧ (∀ (asset : Asset) (uid : Option Nat) (a' : Asset) (ev : AssetEvent),
      dispose_asset asset uid = .ok a' ev →
        a'.assigned_to = asset.assigned_to ∧ a'.assigned_department = asset.assigned_department
        ∧ a'.assigned_email = asset.assigned_email ∧ a'.assigned_at = asset.assigned_at)
    ∧ (∀ (asset : Asset) (uid : Option Nat) (a' : Asset) (ev : AssetEvent),
      mark_damaged asset uid = .ok a' ev →
        a'.assigned_to = asset.assigned_to ∧ a'.assigned_department = asset.assigned_department
        ∧ a'.assigned_email = asset.assigned_email ∧ a'.assigned_at = asset.assigned_at)
    ∧ (∀ (asset : Asset) (uid : Option Nat) (a' : Asset) (ev : AssetEvent),
      mark_missing asset uid = .ok a' ev →
        a'.assigned_to = asset.assigned_to ∧ a'.assigned_department = asset.assigned_department
        ∧ a'.assigned_email = asset.assigned_email ∧ a'.assigned_at = asset.assigned_at) := by
  refine ⟨?_, ?_, ?_, ?_, ?_⟩
  · intro asset uid a' ev h
    simp only [unassign_asset] at h
    split at h
    · exact StepOutcome.noConfusion h
    · simp only [StepOutcome.ok.injEq] at h
      obtain ⟨rfl, rfl⟩ := h
      constructor
      · split <;> rfl
      · exact ⟨by split <;> rfl, by split <;> rfl, by split <;> rfl⟩
  · intro vendors asset vo rv rp ra rr rn today uid nv a' ev h hto
    simp only [start_repair] at h
    split at h
    · exact RepairStartOutcome.noConfusion h
    · split at h
      · exact RepairStartOutcome.noConfusion h
      · split at h
        · exact start_repair_apply_clears _ _ _ _ _ _ _ _ _ _ _ _ h hto
        · split at h
          · exact RepairStartOutcome.noConfusion h
          · split at h
            · exact RepairStartOutcome.noConfusion h
            · exact start_repair_apply_clears _ _ _ _ _ _ _ _ _ _ _ _ h hto
  · intro asset uid a' ev h
    simp only [dispose_asset] at h
    split at h
    · exact StepOutcome.noConfusion h
    · simp only [StepOutcome.ok.injEq] at h
      obtain ⟨rfl, rfl⟩ := h
      exact ⟨rfl, rfl, rfl, rfl⟩
  · intro asset uid a' ev h
    simp only [mark_damaged] at h
    split at h
    · exact StepOutcome.noConfusion h
    · simp only [StepOutcome.ok.injEq] at h
      obtain ⟨rfl, rfl⟩ := h
      exact ⟨rfl, rfl, rfl, rfl⟩
  · intro asset uid a' ev h
    simp only [mark_missing] at h
    split at h
    · exact StepOutcome.noConfusion h
    · simp only [StepOutcome.ok.injEq] at h
      obtain ⟨rfl, rfl⟩ := h
      exact ⟨rfl, rfl, rfl, rfl⟩

/-- Claim C7 as stated is false: a reachable state (create, assign to Jane
Doe, dispose) has status `disposed` - not assigned-like - while
`assigned_to` is still populated. -/
theorem claimC7_counterexample :
    ¬ (∀ s : AssetState, Reachable s →
        ¬ assignedLike s.asset.status → assignmentCleared s.asset) := by
  intro h
  have r0 : Reachable { asset := wAsset, vendors := wDbAfterCreate.vendors, events := [wCreatedEvent] } :=
    Reachable.created wDb wForm wDate none wAsset wCreatedEvent wDbAfterCreate rfl
  have r1 := Reachable.step _ none (Action.assign "Jane Doe" "" "" wDate) r0
  have r2 := Reachable.step _ none Action.dispose r1
  have h2 := h _ r2 (by decide)
  exact absurd h2.1 (by decide)

/-- Claim C4 witness: the concrete creation of `wAsset` appends exactly the
`created` event with no prior status. -/
theorem claimC4_witness :
    wDbAfterCreate.events = wDb.events ++ [wCreatedEvent]
    ∧ wCreatedEvent.from_status = none ∧ wCreatedEvent.to_status = some wAsset.status :=
  claimC4.1 wDb wForm wDate none wAsset wCreatedEvent wDbAfterCreate rfl

/-- Claim C7 witness: unassigning the concretely assigned asset clears all
four assignment fields. -/
theorem claimC7_witness : assignmentCleared wAsset :=
  claimC7.1 wAssignedAsset none wAsset wUnassignEvent rfl



/-!
Tag sequencer theorems: digit printing, tag parsing, counter lemmas and
the sequencing claims.
-/

/-- Fuel-indexed unfolding of the core digit printer. -/
theorem toDigitsCore_eq_decDigits (fuel n : Nat) (acc : List Char) (h : n < fuel) :
    Nat.toDigitsCore 10 fuel n acc = decDigits n ++ acc := by
  induction fuel generalizing n acc with
  | zero => omega
  | succ f ih =>
    rw [Nat.toDigitsCore]
    by_cases h10 : n / 10 = 0
    · have hn : n < 10 := by omega
      rw [if_pos h10, decDigits, dif_pos hn]
      have : n % 10 = n := Nat.mod_eq_of_lt hn
      rw [this]
      rfl
    · have hn : ¬ n < 10 := by
        intro hlt
        exact h10 (Nat.div_eq_of_lt hlt)
      rw [if_neg h10, ih (n / 10) _ (by omega)]
      conv_rhs => rw [decDigits]
      rw [dif_neg hn]
      simp [List.append_assoc]

/-- The characters printed for a natural number are its decimal digits. -/
theorem repr_data_eq_decDigits (n : Nat) : (toString n).data = decDigits n := by
  show (Nat.repr n).data = decDigits n
  rw [Nat.repr, Nat.toDigits]
  rw [toDigitsCore_eq_decDigits (n + 1) n [] (Nat.lt_succ_self n)]
  simp [List.asString]

/-- Every printed digit is one of the ten decimal digit characters. -/
theorem decDigits_mem (n : Nat) : ∀ c ∈ decDigits n, c ∈ "0123456789".data := by
  induction n using Nat.strong_induction_on with
  | _ n ih =>
    intro c hc
    rw [decDigits] at hc
    by_cases hn : n < 10
    · rw [dif_pos hn] at hc
      simp only [List.mem_singleton] at hc
      subst hc
      interval_cases n <;> decide
    · rw [dif_neg hn] at hc
      rcases List.mem_append.mp hc with hc | hc
      · exact ih (n / 10) (Nat.div_lt_self (by omega) (by omega)) c hc
      · simp only [List.mem_singleton] at hc
        subst hc
        have : n % 10 < 10 := Nat.mod_lt _ (by omega)
        interval_cases h : n % 10 <;> simp_all <;> decide

/-- `decDigits` is never empty. -/
theorem decDigits_ne_nil (n : Nat) : decDigits n ≠ [] := by
  rw [decDigits]
  by_cases hn : n < 10
  · rw [dif_pos hn]; simp
  · rw [dif_neg hn]; simp

/-- Value of one digit character. -/
theorem digitChar_val (m : Nat) (h : m < 10) : (Nat.digitChar m).toNat - 48 = m := by
  interval_cases m <;> rfl

/-- Digit characters are not underscores. -/
theorem mem_digits_ne_underscore (c : Char) (h : c ∈ "0123456789".data) : c ≠ '_' := by
  have h' : c ∈ ['0','1','2','3','4','5','6','7','8','9'] := h
  fin_cases h' <;> decide

/-- Digit characters satisfy `Char.isDigit`. -/
theorem mem_digits_isDigit (c : Char) (h : c ∈ "0123456789".data) : c.isDigit = true := by
  have h' : c ∈ ['0','1','2','3','4','5','6','7','8','9'] := h
  fin_cases h' <;> decide

/-- Digit characters are not whitespace. -/
theorem mem_digits_not_ws (c : Char) (h : c ∈ "0123456789".data) : c.isWhitespace = false := by
  have h' : c ∈ ['0','1','2','3','4','5','6','7','8','9'] := h
  fin_cases h' <;> decide

/-- Digit characters are not hyphens. -/
theorem mem_digits_ne_dash (c : Char) (h : c ∈ "0123456789".data) : c ≠ '-' := by
  have h' : c ∈ ['0','1','2','3','4','5','6','7','8','9'] := h
  fin_cases h' <;> decide

/-- Folding the decimal digits of `n` after an accumulator scales by ten. -/
theorem foldl_decDigits (n : Nat) (acc : Nat) :
    (decDigits n).foldl (fun n c => n * 10 + (c.toNat - 48)) acc = acc * 10 ^ (decDigits n).length + n := by
  induction n using Nat.strong_induction_on generalizing acc with
  | _ n ih =>
    rw [decDigits]
    by_cases hn : n < 10
    · rw [dif_pos hn]
      simp [List.foldl, digitChar_val n hn]
    · rw [dif_neg hn]
      rw [List.foldl_append]
      rw [ih (n / 10) (Nat.div_lt_self (by omega) (by omega)) acc]
      simp only [List.foldl]
      rw [digitChar_val (n % 10) (Nat.mod_lt _ (by omega))]
      rw [List.length_append, List.length_singleton, pow_succ, ← Nat.mul_assoc, Nat.add_mul]
      have hdm := Nat.div_add_mod n 10
      omega

/-- `digitsValue` recovers the printed number. -/
theorem digitsValue_decDigits (n : Nat) : digitsValue (decDigits n) = n := by
  unfold digitsValue
  have hf : (decDigits n).filter (fun c => c ≠ '_') = decDigits n := by
    apply List.filter_eq_self.mpr
    intro c hc
    simpa using mem_digits_ne_underscore c (decDigits_mem n c hc)
  rw [hf]
  simpa using foldl_decDigits n 0

/-- Digit characters are not plus signs. -/
theorem mem_digits_ne_plus (c : Char) (h : c ∈ "0123456789".data) : c ≠ '+' := by
  have h' : c ∈ ['0','1','2','3','4','5','6','7','8','9'] := h
  fin_cases h' <;> decide

/-- Dropping leading whitespace is the identity on whitespace-free lists. -/
theorem dropWhile_ws_eq_self (l : List Char) (h : ∀ c ∈ l, c.isWhitespace = false) :
    l.dropWhile Char.isWhitespace = l := by
  cases l with
  | nil => rfl
  | cons c rest =>
    have hc : c.isWhitespace = false := h c (List.mem_cons_self c rest)
    rw [List.dropWhile_cons, if_neg (by simp [hc])]

/-- Stripping is the identity on whitespace-free lists. -/
theorem pyStripChars_eq_self (l : List Char) (h : ∀ c ∈ l, c.isWhitespace = false) :
    pyStripChars l = l := by
  unfold pyStripChars
  rw [dropWhile_ws_eq_self l h]
  rw [dropWhile_ws_eq_self l.reverse (fun c hc => h c (List.mem_reverse.mp hc))]
  exact List.reverse_reverse l

/-- Every character of a zero-padded number is a decimal digit character. -/
theorem pad4_data_mem (n : Nat) :
    ∀ c ∈ List.replicate (4 - (toString n).length) '0' ++ decDigits n,
      c ∈ "0123456789".data := by
  intro c hc
  rcases List.mem_append.mp hc with hc | hc
  · rw [List.eq_of_mem_replicate hc]
    decide
  · exact decDigits_mem n c hc

/-- The underlying characters of `pad4 n`. -/
theorem pad4_data (n : Nat) :
    (pad4 n).data = List.replicate (4 - (toString n).length) '0' ++ decDigits n := by
  show (String.mk (List.replicate (4 - (toString n).length) '0') ++ toString n).data = _
  rw [String.data_append]
  rw [repr_data_eq_decDigits]

/-- A digit-only tail is a valid digit-group tail. -/
theorem digitGroupTail_of_digits (cs : List Char) (h : ∀ c ∈ cs, c ∈ "0123456789".data) :
    digitGroupTail cs = true := by
  induction cs with
  | nil => rfl
  | cons c rest ih =>
    have h' : c ∈ ['0','1','2','3','4','5','6','7','8','9'] := h c (List.mem_cons_self c rest)
    fin_cases h' <;>
      exact ih fun d hd => h d (List.mem_cons_of_mem _ hd)

/-- A non-empty digit-only list is a valid digit group. -/
theorem isDigitGroup_of_digits (cs : List Char) (hne : cs ≠ [])
    (h : ∀ c ∈ cs, c ∈ "0123456789".data) : isDigitGroup cs = true := by
  cases cs with
  | nil => exact absurd rfl hne
  | cons c rest =>
    have h' : c ∈ ['0','1','2','3','4','5','6','7','8','9'] := h c (List.mem_cons_self c rest)
    fin_cases h' <;>
      exact digitGroupTail_of_digits rest fun d hd => h d (List.mem_cons_of_mem _ hd)

/-- Leading zero characters do not change the accumulated value zero. -/
theorem foldl_zeros (k : Nat) :
    (List.replicate k '0').foldl (fun n c => n * 10 + (c.toNat - 48)) 0 = 0 := by
  induction k with
  | zero => rfl
  | succ k ih =>
    rw [List.replicate_succ, List.foldl_cons]
    simpa using ih

/-- The value of a zero-padded digit string. -/
theorem digitsValue_pad (k n : Nat) :
    digitsValue (List.replicate k '0' ++ decDigits n) = n := by
  unfold digitsValue
  rw [List.filter_append]
  have h1 : (List.replicate k '0').filter (fun c => c ≠ '_') = List.replicate k '0' := by
    apply List.filter_eq_self.mpr
    intro c hc
    rw [List.eq_of_mem_replicate hc]
    decide
  have h2 : (decDigits n).filter (fun c => c ≠ '_') = decDigits n := by
    apply List.filter_eq_self.mpr
    intro c hc
    simpa using mem_digits_ne_underscore c (decDigits_mem n c hc)
  rw [h1, h2, List.foldl_append, foldl_zeros]
  simpa using foldl_decDigits n 0

/-- Parsing the zero-padded print of `n` with Python `int` recovers `n`. -/
theorem pyInt?_pad4 (n : Nat) : pyInt? (pad4 n) = some n := by
  simp only [pyInt?]
  have hmem := pad4_data_mem n
  rw [pad4_data n]
  rw [pyStripChars_eq_self _ (fun c hc => mem_digits_not_ws c (hmem c hc))]
  have hne : List.replicate (4 - (toString n).length) '0' ++ decDigits n ≠ [] := by
    intro hcontra
    exact decDigits_ne_nil n (List.append_eq_nil.mp hcontra).2
  have hhead : (List.replicate (4 - (toString n).length) '0' ++ decDigits n).headD ' ' ≠ '+' := by
    cases hl : List.replicate (4 - (toString n).length) '0' ++ decDigits n with
    | nil => exact absurd hl hne
    | cons c rest =>
      have : c ∈ "0123456789".data := by
        apply hmem
        rw [hl]
        exact List.mem_cons_self c rest
      simpa using mem_digits_ne_plus c this
  rw [if_neg hhead]
  rw [isDigitGroup_of_digits _ hne hmem, if_pos rfl]
  rw [digitsValue_pad]

/-- Splitting never produces an empty piece list. -/
theorem pySplit_ne_nil (sep : Char) (cs : List Char) : pySplit sep cs ≠ [] := by
  induction cs with
  | nil => simp [pySplit]
  | cons c rest ih =>
    rw [pySplit]
    by_cases hc : c = sep
    · rw [if_pos hc]
      simp
    · rw [if_neg hc]
      cases hsp : pySplit sep rest with
      | nil => simp
      | cons g gs => simp

/-- Splitting distributes over a separator occurrence. -/
theorem pySplit_append_sep (sep : Char) (a b : List Char) :
    pySplit sep (a ++ sep :: b) = pySplit sep a ++ pySplit sep b := by
  induction a with
  | nil =>
    simp [pySplit]
  | cons c a' ih =>
    rw [List.cons_append, pySplit]
    by_cases hc : c = sep
    · rw [if_pos hc, ih]
      rw [pySplit, if_pos hc]
      rfl
    · rw [if_neg hc, ih]
      conv_rhs => rw [pySplit, if_neg hc]
      cases hsp : pySplit sep a' with
      | nil => exact absurd hsp (pySplit_ne_nil sep a')
      | cons g gs => rfl

/-- A separator-free list splits to itself. -/
theorem pySplit_no_sep (sep : Char) (cs : List Char) (h : ∀ c ∈ cs, c ≠ sep) :
    pySplit sep cs = [cs] := by
  induction cs with
  | nil => rfl
  | cons c rest ih =>
    rw [pySplit, if_neg (h c (List.mem_cons_self c rest))]
    rw [ih fun d hd => h d (List.mem_cons_of_mem _ hd)]

/-- The piece list of a freshly minted tag: the company prefix, the office
pieces, the category pieces, then the year and the padded sequence number. -/
theorem pySplit_minted (o c : String) (y n : Nat) :
    pySplit '-' ("ESS-" ++ o ++ "-" ++ c ++ "-" ++ toString y ++ "-" ++ pad4 n).data =
      (["ESS".data] ++ pySplit '-' o.data ++ pySplit '-' c.data)
        ++ [(toString y).data, (pad4 n).data] := by
  have hy : ∀ d ∈ (toString y).data, d ≠ '-' := by
    intro d hd
    rw [repr_data_eq_decDigits] at hd
    exact mem_digits_ne_dash d (decDigits_mem y d hd)
  have hp : ∀ d ∈ (pad4 n).data, d ≠ '-' := by
    intro d hd
    rw [pad4_data] at hd
    exact mem_digits_ne_dash d (pad4_data_mem n d hd)
  have hsplit : ("ESS-" ++ o ++ "-" ++ c ++ "-" ++ toString y ++ "-" ++ pad4 n).data =
      "ESS".data ++ '-' :: (o.data ++ '-' :: (c.data ++ '-' :: ((toString y).data
        ++ '-' :: (pad4 n).data))) := by
    simp only [String.data_append]
    simp [List.append_assoc]
  rw [hsplit]
  rw [pySplit_append_sep '-' "ESS".data]
  rw [pySplit_append_sep '-' o.data]
  rw [pySplit_append_sep '-' c.data]
  rw [pySplit_append_sep '-' (toString y).data]
  rw [pySplit_no_sep '-' "ESS".data (by decide)]
  rw [pySplit_no_sep '-' (toString y).data hy]
  rw [pySplit_no_sep '-' (pad4 n).data hp]
  simp [List.append_assoc]

/-- Any successful parse of a freshly minted tag recovers exactly the
sequence number embedded in it, whatever office and year are queried. -/
theorem tagSeqFor_minted (o2 : String) (y2 : Nat) (o c : String) (y n v : Nat)
    (h : tagSeqFor o2 y2 ("ESS-" ++ o ++ "-" ++ c ++ "-" ++ toString y ++ "-" ++ pad4 n) = some v) :
    v = n := by
  simp only [tagSeqFor] at h
  rw [pySplit_minted o c y n] at h
  split at h
  · exact Option.noConfusion h
  · split at h
    · rw [List.getD_append_right _ _ _ _ (by simp; omega)] at h
      rw [List.length_append] at h
      have hx : [(toString y).data, (pad4 n).data].length = 2 := rfl
      rw [hx] at h
      rw [show (["ESS".data] ++ pySplit '-' o.data ++ pySplit '-' c.data).length + 2 - 1
          - (["ESS".data] ++ pySplit '-' o.data ++ pySplit '-' c.data).length = 1 from by omega] at h
      have hg : ([(toString y).data, (pad4 n).data].getD 1 []) = (pad4 n).data := rfl
      rw [hg] at h
      have hpi : pyInt? (String.mk (pad4 n).data) = some n := pyInt?_pad4 n
      rw [hpi] at h
      exact (Option.some_inj.mp h).symm
    · exact Option.noConfusion h

/-- A found sequence row carries the queried key. -/
theorem findSeq_key (seqs : List AssetTagSequence) (o : String) (y : Nat)
    (r : AssetTagSequence) (h : findSeq seqs o y = some r) :
    r.office_code = o ∧ r.year = y := by
  induction seqs with
  | nil => exact Option.noConfusion h
  | cons s rest ih =>
    rw [findSeq, List.find?] at h
    by_cases hp : (s.office_code == o && s.year == y) = true
    · rw [hp] at h
      simp only [Option.some.injEq] at h
      subst h
      simp only [Bool.and_eq_true, beq_iff_eq] at hp
      exact hp
    · rw [Bool.not_eq_true] at hp
      rw [hp] at h
      exact ih h

/-- Finding in an appended table first looks left. -/
theorem findSeq_append (l1 l2 : List AssetTagSequence) (o : String) (y : Nat) :
    findSeq (l1 ++ l2) o y =
      match findSeq l1 o y with
      | some r => some r
      | none => findSeq l2 o y := by
  induction l1 with
  | nil => simp [findSeq]
  | cons s rest ih =>
    rw [List.cons_append, findSeq, List.find?]
    by_cases hp : (s.office_code == o && s.year == y) = true
    · rw [hp]
      rw [findSeq, List.find?, hp]
    · rw [Bool.not_eq_true] at hp
      rw [hp]
      rw [findSeq, List.find?, hp]
      exact ih

/-- Updating rows of one key leaves lookups with the key updated and lookups
with other keys unchanged. -/
theorem findSeq_setSeq (seqs : List AssetTagSequence) (o : String) (y : Nat) (v : Nat)
    (o2 : String) (y2 : Nat) :
    findSeq (setSeq seqs o y v) o2 y2 =
      (findSeq seqs o2 y2).map
        (fun s => if s.office_code == o && s.year == y then { s with last_seq := v } else s) := by
  induction seqs with
  | nil => rfl
  | cons s rest ih =>
    rw [setSeq, List.map]
    by_cases hp2 : (s.office_code == o2 && s.year == y2) = true
    · have hkeep : ((if s.office_code == o && s.year == y then { s with last_seq := v }
          else s).office_code == o2
          && (if s.office_code == o && s.year == y then { s with last_seq := v }
          else s).year == y2) = true := by
        split <;> exact hp2
      rw [findSeq, List.find?, hkeep]
      rw [findSeq, List.find?, hp2]
      rfl
    · rw [Bool.not_eq_true] at hp2
      have hkeep : ((if s.office_code == o && s.year == y then { s with last_seq := v }
          else s).office_code == o2
          && (if s.office_code == o && s.year == y then { s with last_seq := v }
          else s).year == y2) = false := by
        split <;> exact hp2
      rw [findSeq, List.find?, hkeep]
      rw [findSeq, List.find?, hp2]
      have ih2 : findSeq (setSeq rest o y v) o2 y2 = _ := ih
      rw [setSeq] at ih2
      exact ih2

/-- Stored value after a same-key update. -/
theorem lastSeqIn_setSeq_self (seqs : List AssetTagSequence) (o : String) (y : Nat) (v : Nat)
    (r : AssetTagSequence) (h : findSeq seqs o y = some r) :
    lastSeqIn (setSeq seqs o y v) o y = v := by
  unfold lastSeqIn
  rw [findSeq_setSeq, h]
  obtain ⟨h1, h2⟩ := findSeq_key seqs o y r h
  simp [h1, h2]

/-- Stored value after an update of a different key. -/
theorem lastSeqIn_setSeq_ne (seqs : List AssetTagSequence) (o : String) (y : Nat) (v : Nat)
    (o2 : String) (y2 : Nat) (h : ¬ (o2 = o ∧ y2 = y)) :
    lastSeqIn (setSeq seqs o y v) o2 y2 = lastSeqIn seqs o2 y2 := by
  unfold lastSeqIn
  rw [findSeq_setSeq]
  cases hf : findSeq seqs o2 y2 with
  | none => rfl
  | some r =>
    obtain ⟨h1, h2⟩ := findSeq_key seqs o2 y2 r hf
    have hne : (r.office_code == o && r.year == y) = false := by
      rw [h1, h2]
      by_cases ho : o2 = o
      · have hy : ¬ y2 = y := fun hy => h ⟨ho, hy⟩
        simp [hy]
      · simp [ho]
    have hprop : ¬ (r.office_code = o ∧ r.year = y) := by
      rw [h1, h2]
      exact h
    simp [hne, hprop]

/-- One step of the scan fold only raises the accumulator. -/
theorem scanStep_ge (o : String) (y : Nat) (acc : Nat) (a : Asset) :
    acc ≤ (match tagSeqFor o y (a.asset_tag.getD "") with
      | some seq_val => if seq_val > acc then seq_val else acc
      | none => acc) := by
  cases tagSeqFor o y (a.asset_tag.getD "") with
  | none => exact Nat.le_refl acc
  | some v =>
    simp only
    split <;> omega

/-- The scan fold is monotone in its accumulator start. -/
theorem scanFold_ge (assets : List Asset) (o : String) (y : Nat) (acc : Nat) :
    acc ≤ assets.foldl
      (fun max_seq a =>
        match tagSeqFor o y (a.asset_tag.getD "") with
        | some seq_val => if seq_val > max_seq then seq_val else max_seq
        | none => max_seq) acc := by
  induction assets generalizing acc with
  | nil => exact Nat.le_refl acc
  | cons a rest ih =>
    rw [List.foldl_cons]
    exact Nat.le_trans (scanStep_ge o y acc a) (ih _)

/-- Every parsed sequence number of a listed asset is bounded by the scan. -/
theorem scanFold_ge_parsed (assets : List Asset) (o : String) (y : Nat) (acc : Nat)
    (a : Asset) (ha : a ∈ assets) (v : Nat)
    (hv : tagSeqFor o y (a.asset_tag.getD "") = some v) :
    v ≤ assets.foldl
      (fun max_seq a =>
        match tagSeqFor o y (a.asset_tag.getD "") with
        | some seq_val => if seq_val > max_seq then seq_val else max_seq
        | none => max_seq) acc := by
  induction assets generalizing acc with
  | nil => exact absurd ha (List.not_mem_nil a)
  | cons b rest ih =>
    rw [List.foldl_cons]
    rcases List.mem_cons.mp ha with rfl | hmem
    · refine Nat.le_trans ?_ (scanFold_ge rest o y _)
      rw [hv]
      simp only
      split <;> omega
    · exact ih _ hmem

/-- Every parsed sequence number of a listed asset is bounded by the scan. -/
theorem scan_ge_parsed (assets : List Asset) (o : String) (y : Nat) (a : Asset)
    (ha : a ∈ assets) (v : Nat) (hv : tagSeqFor o y (a.asset_tag.getD "") = some v) :
    v ≤ _max_existing_seq_for_office_year assets o y :=
  scanFold_ge_parsed assets o y 0 a ha v hv

/-- The scan over one extra asset is bounded by the maximum of the old scan
and that asset's parsed number. -/
theorem scan_append_le (assets : List Asset) (o : String) (y : Nat) (a : Asset) (bound : Nat)
    (hold : _max_existing_seq_for_office_year assets o y ≤ bound)
    (hnew : ∀ v, tagSeqFor o y (a.asset_tag.getD "") = some v → v ≤ bound) :
    _max_existing_seq_for_office_year (assets ++ [a]) o y ≤ bound := by
  unfold _max_existing_seq_for_office_year at hold ⊢
  rw [List.foldl_append, List.foldl_cons, List.foldl_nil]
  cases hv : tagSeqFor o y (a.asset_tag.getD "") with
  | none => exact hold
  | some v =>
    have := hnew v hv
    simp only
    split <;> omega

/-- The returned row of `_get_or_create_sequence` carries the queried key. -/
theorem getOrCreate_key (db : Db) (o : String) (y : Nat) :
    (_get_or_create_sequence db o y).1.office_code = o
    ∧ (_get_or_create_sequence db o y).1.year = y := by
  simp only [_get_or_create_sequence]
  split
  · split <;> exact ⟨rfl, rfl⟩
  · rename_i r hr
    split
    · exact findSeq_key db.sequences o y r hr
    · exact findSeq_key db.sequences o y r hr

/-- After the fetch, the returned row is stored under its key. -/
theorem getOrCreate_found (db : Db) (o : String) (y : Nat) :
    findSeq (_get_or_create_sequence db o y).2.sequences o y =
      some (_get_or_create_sequence db o y).1 := by
  simp only [_get_or_create_sequence]
  split
  · rename_i hr
    rw [findSeq_append, hr]
    dsimp only
    split <;> simp [findSeq, List.find?]
  · rename_i r hr
    split
    · rw [findSeq_setSeq, hr]
      obtain ⟨h1, h2⟩ := findSeq_key db.sequences o y r hr
      simp [h1, h2]
    · exact hr

/-- The returned row stores at least the previously stored value. -/
theorem getOrCreate_fst_ge_stored (db : Db) (o : String) (y : Nat) :
    lastSeqIn db.sequences o y ≤ (_get_or_create_sequence db o y).1.last_seq := by
  unfold lastSeqIn
  simp only [_get_or_create_sequence]
  split
  · rename_i hr
    rw [hr]
    split <;> simp
  · rename_i r hr
    rw [hr]
    split
    · rename_i hmax
      simp only [Option.map_some', Option.getD_some]
      omega
    · exact Nat.le_refl _

/-- The returned row stores at least the scanned maximum. -/
theorem getOrCreate_fst_ge_scan (db : Db) (o : String) (y : Nat) :
    _max_existing_seq_for_office_year db.assets o y
      ≤ (_get_or_create_sequence db o y).1.last_seq := by
  simp only [_get_or_create_sequence]
  split
  · split
    · exact Nat.le_refl _
    · rename_i hmax
      simp only [gt_iff_lt, not_lt, Nat.le_zero] at hmax
      omega
  · rename_i r hr
    split
    · exact Nat.le_refl _
    · rename_i hmax
      simp only [gt_iff_lt, not_lt] at hmax
      dsimp only
      omega

/-- The fetch never lowers any stored counter. -/
theorem getOrCreate_mono (db : Db) (o : String) (y : Nat) (o2 : String) (y2 : Nat) :
    lastSeqIn db.sequences o2 y2
      ≤ lastSeqIn (_get_or_create_sequence db o y).2.sequences o2 y2 := by
  simp only [_get_or_create_sequence]
  split
  · rename_i hr
    by_cases hkey : o2 = o ∧ y2 = y
    · obtain ⟨rfl, rfl⟩ := hkey
      unfold lastSeqIn
      rw [hr]
      simp
    · unfold lastSeqIn
      rw [findSeq_append]
      cases hf : findSeq db.sequences o2 y2 with
      | none => exact Nat.zero_le _
      | some r => exact Nat.le_refl _
  · rename_i r hr
    split
    · rename_i hmax
      by_cases hkey : o2 = o ∧ y2 = y
      · obtain ⟨rfl, rfl⟩ := hkey
        rw [lastSeqIn_setSeq_self db.sequences o2 y2 _ r hr]
        unfold lastSeqIn
        rw [hr]
        simp only [Option.map_some', Option.getD_some]
        omega
      · rw [lastSeqIn_setSeq_ne db.sequences o y _ o2 y2 hkey]
    · exact Nat.le_refl _

/-- Evaluation of `generate_asset_tag` when both codes are non-empty. -/
theorem generate_eq (db : Db) (loc : Location) (cat : Category) (y : Nat)
    (ho : officeCodeOf loc ≠ "") (hc : catCodeOf cat ≠ "") :
    generate_asset_tag db loc cat y =
      .ok ("ESS-" ++ officeCodeOf loc ++ "-" ++ catCodeOf cat ++ "-" ++ toString y ++ "-"
          ++ pad4 (nextIssuedSeq db (officeCodeOf loc) y),
        mintedDb db (officeCodeOf loc) y) := by
  simp only [officeCodeOf, catCodeOf] at ho hc ⊢
  simp only [generate_asset_tag, if_neg ho, if_neg hc]
  rfl

/-- Inversion of a successful `generate_asset_tag` call. -/
theorem generate_ok_shape (db : Db) (loc : Location) (cat : Category) (y : Nat)
    (t : String) (db' : Db) (h : generate_asset_tag db loc cat y = .ok (t, db')) :
    officeCodeOf loc ≠ "" ∧ catCodeOf cat ≠ ""
    ∧ t = "ESS-" ++ officeCodeOf loc ++ "-" ++ catCodeOf cat ++ "-" ++ toString y ++ "-"
        ++ pad4 (nextIssuedSeq db (officeCodeOf loc) y)
    ∧ db' = mintedDb db (officeCodeOf loc) y := by
  by_cases ho : officeCodeOf loc = ""
  · exfalso
    simp only [officeCodeOf] at ho
    simp only [generate_asset_tag, if_pos ho] at h
    exact Except.noConfusion h
  · by_cases hc : catCodeOf cat = ""
    · exfalso
      simp only [officeCodeOf] at ho
      simp only [catCodeOf] at hc
      simp only [generate_asset_tag, if_neg ho, if_pos hc] at h
      exact Except.noConfusion h
    · rw [generate_eq db loc cat y ho hc] at h
      simp only [Except.ok.injEq, Prod.mk.injEq] at h
      obtain ⟨rfl, rfl⟩ := h
      exact ⟨ho, hc, rfl, rfl⟩

/-- The assets table is unchanged by the fetch. -/
theorem getOrCreate_snd_assets (db : Db) (o : String) (y : Nat) :
    (_get_or_create_sequence db o y).2.assets = db.assets := by
  obtain ⟨s, hs⟩ := _get_or_create_sequence_snd_frame db o y
  rw [hs]

/-- The assets table is unchanged by a mint. -/
theorem mintedDb_assets (db : Db) (o : String) (y : Nat) :
    (mintedDb db o y).assets = db.assets := by
  show (_get_or_create_sequence db o y).2.assets = db.assets
  exact getOrCreate_snd_assets db o y

/-- After a mint the counter row stores exactly the issued number. -/
theorem findSeq_mintedDb_self (db : Db) (o : String) (y : Nat) :
    findSeq (mintedDb db o y).sequences o y =
      some { office_code := o, year := y, last_seq := nextIssuedSeq db o y } := by
  show findSeq (setSeq (_get_or_create_sequence db o y).2.sequences o y (nextIssuedSeq db o y)) o y = _
  rw [findSeq_setSeq, getOrCreate_found]
  obtain ⟨h1, h2⟩ := getOrCreate_key db o y
  simp only [Option.map_some', Option.some.injEq]
  rw [if_pos (by simp [h1, h2])]
  cases hfst : (_get_or_create_sequence db o y).1 with
  | mk o2 y2 v2 =>
    rw [hfst] at h1 h2
    simp at h1 h2
    simp [h1, h2]

/-- After a mint the stored counter equals the issued number. -/
theorem lastSeqIn_mintedDb_self (db : Db) (o : String) (y : Nat) :
    lastSeqIn (mintedDb db o y).sequences o y = nextIssuedSeq db o y := by
  unfold lastSeqIn
  rw [findSeq_mintedDb_self]
  rfl

/-- The issued number strictly exceeds the stored counter. -/
theorem nextIssuedSeq_gt_stored (db : Db) (o : String) (y : Nat) :
    lastSeqIn db.sequences o y < nextIssuedSeq db o y := by
  have := getOrCreate_fst_ge_stored db o y
  unfold nextIssuedSeq
  omega

/-- The issued number strictly exceeds the scanned maximum. -/
theorem nextIssuedSeq_gt_scan (db : Db) (o : String) (y : Nat) :
    _max_existing_seq_for_office_year db.assets o y < nextIssuedSeq db o y := by
  have := getOrCreate_fst_ge_scan db o y
  unfold nextIssuedSeq
  omega

/-- A mint never lowers any stored counter. -/
theorem mintedDb_mono (db : Db) (o : String) (y : Nat) (o2 : String) (y2 : Nat) :
    lastSeqIn db.sequences o2 y2 ≤ lastSeqIn (mintedDb db o y).sequences o2 y2 := by
  by_cases hkey : o2 = o ∧ y2 = y
  · obtain ⟨rfl, rfl⟩ := hkey
    rw [lastSeqIn_mintedDb_self]
    have h1 := nextIssuedSeq_gt_stored db o2 y2
    omega
  · show lastSeqIn (setSeq (_get_or_create_sequence db o y).2.sequences o y (nextIssuedSeq db o y)) o2 y2 ≥ _
    rw [lastSeqIn_setSeq_ne _ o y _ o2 y2 hkey]
    exact getOrCreate_mono db o y o2 y2

/-- Fetching the counter of a minted store issues the successor number. -/
theorem nextIssuedSeq_mintedDb (db : Db) (o : String) (y : Nat) (extra : List Asset)
    (hextra : _max_existing_seq_for_office_year ((mintedDb db o y).assets ++ extra) o y
      ≤ nextIssuedSeq db o y) :
    nextIssuedSeq { mintedDb db o y with assets := (mintedDb db o y).assets ++ extra } o y
      = nextIssuedSeq db o y + 1 := by
  conv_lhs => rw [nextIssuedSeq]
  rw [_get_or_create_sequence]
  rw [show ({ mintedDb db o y with assets := (mintedDb db o y).assets ++ extra } : Db).sequences
      = (mintedDb db o y).sequences from rfl]
  rw [findSeq_mintedDb_self]
  dsimp only
  rw [if_neg (by simpa using hextra)]

/-- Claim C1: for every location and category whose codes are non-empty after
trimming and upper-casing, and every year, generate_asset_tag returns
`ESS-{OFFICE}-{CATEGORY}-{YEAR}-{SEQ:04d}`, and the sequence number is scoped
to (office, year) and shared across categories: after a successful call (with
or without the created asset inserted into the store), the next issued number
for that office/year is the successor, whatever category is passed. -/
theorem claimC1 (db : Db) (loc : Location) (cat : Category) (year : Nat)
    (ho : officeCodeOf loc ≠ "") (hc : catCodeOf cat ≠ "") :
    mintedTag db loc cat year =
      .ok ("ESS-" ++ officeCodeOf loc ++ "-" ++ catCodeOf cat ++ "-" ++ toString year ++ "-"
        ++ pad4 (nextIssuedSeq db (officeCodeOf loc) year))
    ∧ (∀ (t : String) (db' : Db), generate_asset_tag db loc cat year = .ok (t, db') →
        nextIssuedSeq db' (officeCodeOf loc) year
          = nextIssuedSeq db (officeCodeOf loc) year + 1
        ∧ ∀ a : Asset, a.asset_tag = some t →
            nextIssuedSeq { db' with assets := db'.assets ++ [a] } (officeCodeOf loc) year
              = nextIssuedSeq db (officeCodeOf loc) year + 1) := by
  constructor
  · rw [mintedTag, generate_eq db loc cat year ho hc]
    rfl
  · intro t db' h
    obtain ⟨-, -, hteq, hdb⟩ := generate_ok_shape db loc cat year t db' h
    subst hdb
    constructor
    · have h0 : nextIssuedSeq { mintedDb db (officeCodeOf loc) year with
          assets := (mintedDb db (officeCodeOf loc) year).assets ++ [] } (officeCodeOf loc) year
          = nextIssuedSeq db (officeCodeOf loc) year + 1 := by
        apply nextIssuedSeq_mintedDb
        rw [List.append_nil, mintedDb_assets]
        have := nextIssuedSeq_gt_scan db (officeCodeOf loc) year
        omega
      have hsame : ({ mintedDb db (officeCodeOf loc) year with
          assets := (mintedDb db (officeCodeOf loc) year).assets ++ [] } : Db)
          = mintedDb db (officeCodeOf loc) year := by
        rw [List.append_nil]
      rw [hsame] at h0
      exact h0
    · intro a ha
      apply nextIssuedSeq_mintedDb
      rw [mintedDb_assets]
      apply scan_append_le
      · have := nextIssuedSeq_gt_scan db (officeCodeOf loc) year
        omega
      · intro v hv
        rw [ha] at hv
        simp only [Option.getD_some] at hv
        rw [hteq] at hv
        have := tagSeqFor_minted (officeCodeOf loc) year (officeCodeOf loc) (catCodeOf cat)
          year (nextIssuedSeq db (officeCodeOf loc) year) v hv
        omega

/-- Claim C2: `last_seq` never decreases under any Tag Sequencer operation
(counter fetch, committed issuance, or any other request rewriting the assets
table), and two successful `generate_asset_tag` calls for the same office and
year, with any committed operations in between, issue strictly increasing -
hence never equal - sequence numbers, each embedded in the returned tag. -/
theorem claimC2 :
    (∀ (db : Db) (op : TagOp) (o : String) (y : Nat),
      lastSeqIn db.sequences o y ≤ lastSeqIn (applyTagOp db op).sequences o y)
    ∧ (∀ (db : Db) (loc loc2 : Location) (cat cat2 : Category) (year : Nat) (ops : List TagOp)
        (t1 t2 : String) (db1 db2 : Db),
      generate_asset_tag db loc cat year = .ok (t1, db1) →
      generate_asset_tag (applyTagOps db1 ops) loc2 cat2 year = .ok (t2, db2) →
      officeCodeOf loc2 = officeCodeOf loc →
      nextIssuedSeq db (officeCodeOf loc) year
          < nextIssuedSeq (applyTagOps db1 ops) (officeCodeOf loc) year
      ∧ (∃ p, t1 = p ++ pad4 (nextIssuedSeq db (officeCodeOf loc) year))
      ∧ (∃ p, t2 = p ++ pad4 (nextIssuedSeq (applyTagOps db1 ops) (officeCodeOf loc) year))) := by
  have hop : ∀ (db : Db) (op : TagOp) (o : String) (y : Nat),
      lastSeqIn db.sequences o y ≤ lastSeqIn (applyTagOp db op).sequences o y := by
    intro db op o y
    cases op with
    | fetch o2 y2 => exact getOrCreate_mono db o2 y2 o y
    | issue loc cat y2 =>
      rw [applyTagOp]
      cases hg : generate_asset_tag db loc cat y2 with
      | error e => exact Nat.le_refl _
      | ok p =>
        obtain ⟨t, db'⟩ := p
        obtain ⟨-, -, -, hdb⟩ := generate_ok_shape db loc cat y2 t db' hg
        subst hdb
        exact mintedDb_mono db (officeCodeOf loc) y2 o y
    | assetsChanged l => exact Nat.le_refl _
  have hops : ∀ (ops : List TagOp) (db : Db) (o : String) (y : Nat),
      lastSeqIn db.sequences o y ≤ lastSeqIn (applyTagOps db ops).sequences o y := by
    intro ops
    induction ops with
    | nil => intro db o y; exact Nat.le_refl _
    | cons op rest ih =>
      intro db o y
      exact Nat.le_trans (hop db op o y) (ih (applyTagOp db op) o y)
  refine ⟨hop, ?_⟩
  intro db loc loc2 cat cat2 year ops t1 t2 db1 db2 h1 h2 hoff
  obtain ⟨ho1, hc1, ht1, hdb1⟩ := generate_ok_shape db loc cat year t1 db1 h1
  obtain ⟨ho2, hc2, ht2, hdb2⟩ := generate_ok_shape (applyTagOps db1 ops) loc2 cat2 year t2 db2 h2
  subst hdb1
  have hstep1 : lastSeqIn (mintedDb db (officeCodeOf loc) year).sequences (officeCodeOf loc) year
      = nextIssuedSeq db (officeCodeOf loc) year := lastSeqIn_mintedDb_self db (officeCodeOf loc) year
  have hchain := hops ops (mintedDb db (officeCodeOf loc) year) (officeCodeOf loc) year
  rw [hstep1] at hchain
  have hlt := nextIssuedSeq_gt_stored (applyTagOps (mintedDb db (officeCodeOf loc) year) ops)
    (officeCodeOf loc) year
  refine ⟨by omega, ⟨_, ht1⟩, ?_⟩
  rw [hoff] at ht2
  exact ⟨_, ht2⟩

/-- Claim C3: a missing sequence row is created with `last_seq` equal to the
scanned maximum of the existing tags for that office/year (0 if none); an
existing row that lags strictly behind the scan is raised to the scanned
maximum; a row at or above the scan is untouched; and in every case the next
issued number strictly exceeds every sequence number parsed from the existing
tags of that office/year. -/
theorem claimC3 (db : Db) (o : String) (y : Nat) :
    (findSeq db.sequences o y = none →
      (_get_or_create_sequence db o y).1 =
        { office_code := o, year := y,
          last_seq := _max_existing_seq_for_office_year db.assets o y }
      ∧ (_get_or_create_sequence db o y).2.sequences
          = db.sequences ++ [(_get_or_create_sequence db o y).1])
    ∧ (∀ r, findSeq db.sequences o y = some r →
        r.last_seq < _max_existing_seq_for_office_year db.assets o y →
        (_get_or_create_sequence db o y).1 =
          { office_code := r.office_code, year := r.year,
            last_seq := _max_existing_seq_for_office_year db.assets o y })
    ∧ (∀ r, findSeq db.sequences o y = some r →
        _max_existing_seq_for_office_year db.assets o y ≤ r.last_seq →
        _get_or_create_sequence db o y = (r, db))
    ∧ (∀ a ∈ db.assets, ∀ v, tagSeqFor o y (a.asset_tag.getD "") = some v →
        v < nextIssuedSeq db o y) := by
  refine ⟨?_, ?_, ?_, ?_⟩
  · intro hr
    simp only [_get_or_create_sequence, hr]
    constructor
    · split
      · rfl
      · rename_i hmax
        simp only [gt_iff_lt, not_lt, Nat.le_zero] at hmax
        rw [hmax]
    · trivial
  · intro r hr hlt
    simp only [_get_or_create_sequence, hr]
    rw [if_pos (by omega)]
  · intro r hr hle
    simp only [_get_or_create_sequence, hr]
    rw [if_neg (by omega)]
  · intro a ha v hv
    have h1 := scan_ge_parsed db.assets o y a ha v hv
    have h2 := nextIssuedSeq_gt_scan db o y
    omega

theorem claimC1_witness :
    mintedTag wDb wLoc wCat 2025 = .ok "ESS-M-COMP-2025-0001"
    ∧ nextIssuedSeq wGenDb1 "M" 2025 = 2
    ∧ mintedTag wDb2 wLoc wCat2 2025 = .ok "ESS-M-OTHR-2025-0003" := by
  refine ⟨?_, ?_, ?_⟩
  · exact (claimC1 wDb wLoc wCat 2025 (by decide) (by decide)).1
  · exact ((claimC1 wDb wLoc wCat 2025 (by decide) (by decide)).2
      "ESS-M-COMP-2025-0001" wGenDb1 rfl).1
  · exact (claimC1 wDb2 wLoc wCat2 2025 (by decide) (by decide)).1

theorem claimC2_witness :
    lastSeqIn wDb2.sequences "M" 2025
      ≤ lastSeqIn (applyTagOp wDb2 (TagOp.fetch "M" 2025)).sequences "M" 2025
    ∧ (nextIssuedSeq wDb "M" 2025
        < nextIssuedSeq (applyTagOps wGenDb1 [TagOp.assetsChanged [wAsset]]) "M" 2025
      ∧ (∃ p, "ESS-M-COMP-2025-0001" = p ++ pad4 (nextIssuedSeq wDb "M" 2025))
      ∧ (∃ p, "ESS-M-OTHR-2025-0002"
          = p ++ pad4 (nextIssuedSeq (applyTagOps wGenDb1 [TagOp.assetsChanged [wAsset]]) "M" 2025))) :=
  ⟨claimC2.1 wDb2 (TagOp.fetch "M" 2025) "M" 2025,
   claimC2.2 wDb wLoc wLoc wCat wCat2 2025 [TagOp.assetsChanged [wAsset]]
     "ESS-M-COMP-2025-0001" "ESS-M-OTHR-2025-0002" wGenDb1 wOpsDb2 rfl rfl rfl⟩

theorem claimC3_witness :
    ((_get_or_create_sequence wStaleDb "P" 2025).1
        = { office_code := "P", year := 2025, last_seq := 0 }
      ∧ (_get_or_create_sequence wStaleDb "P" 2025).2.sequences
        = wStaleDb.sequences ++ [(_get_or_create_sequence wStaleDb "P" 2025).1])
    ∧ (_get_or_create_sequence wStaleDb "M" 2025).1
        = { office_code := "M", year := 2025, last_seq := 7 }
    ∧ 7 < nextIssuedSeq wStaleDb "M" 2025 := by
  refine ⟨?_, ?_, ?_⟩
  · exact (claimC3 wStaleDb "P" 2025).1 rfl
  · exact (claimC3 wStaleDb "M" 2025).2.1
      { office_code := "M", year := 2025, last_seq := 3 } rfl (by decide)
  · exact (claimC3 wStaleDb "M" 2025).2.2.2 wStaleAsset (by decide) 7 rfl


/-!
CSV import theorems.
-/

/-- Folding rows never removes previously recorded errors. -/
theorem importFold_errors_mono (rows : List CsvRow) (today : PyDate) (uid : Option Nat)
    (p : ImportState × Nat) :
    ∃ tail, ((rows.foldl (fun p row => (importRow p.1 p.2 row today uid, p.2 + 1)) p).1).errors
      = p.1.errors ++ tail := by
  induction rows generalizing p with
  | nil => exact ⟨[], (List.append_nil _).symm⟩
  | cons r rest ih =>
    rw [List.foldl_cons]
    obtain ⟨tail2, h2⟩ := ih (importRow p.1 p.2 r today uid, p.2 + 1)
    refine ⟨(importRowStep p.1.db p.2 r today uid).2.1 ++ tail2, ?_⟩
    rw [h2]
    show p.1.errors ++ (importRowStep p.1.db p.2 r today uid).2.1 ++ tail2 = _
    rw [List.append_assoc]

/-- A row with a blank name stages exactly one error message. -/
theorem importRowStep_empty_name (db : Db) (n : Nat) (row : CsvRow) (today : PyDate)
    (uid : Option Nat) (h : pyStrip (row.name.getD "") = "") :
    (importRowStep db n row today uid).2.1 = ["Row " ++ toString n ++ ": " ++ "name is required."] := by
  simp [importRowStep, h]

/-- A blank-name row anywhere in the batch leaves the session with errors. -/
theorem importFold_errors_ne_nil (rows : List CsvRow) (today : PyDate) (uid : Option Nat)
    (p : ImportState × Nat) (row : CsvRow) (hrow : row ∈ rows)
    (hname : pyStrip (row.name.getD "") = "") :
    ((rows.foldl (fun p row => (importRow p.1 p.2 row today uid, p.2 + 1)) p).1).errors ≠ [] := by
  induction rows generalizing p with
  | nil => exact absurd hrow (List.not_mem_nil row)
  | cons r rest ih =>
    rw [List.foldl_cons]
    rcases List.mem_cons.mp hrow with rfl | hmem
    · obtain ⟨tail, htail⟩ := importFold_errors_mono rest today uid
        (importRow p.1 p.2 row today uid, p.2 + 1)

      rw [htail]
      show p.1.errors ++ (importRowStep p.1.db p.2 row today uid).2.1 ++ tail ≠ []
      rw [importRowStep_empty_name p.1.db p.2 row today uid hname]
      simp
    · exact ih _ hmem

/-- Claim C8: the CSV import is all-or-nothing: a failed import (row errors
or missing headers) leaves the store exactly as it was - no asset, vendor or
event from any row survives - a blank-name row anywhere in the file forces
that failure, and a successful import commits the staged session with no row
having errored. -/
theorem claimC8 (db : Db) (headers : List String) (rows : List CsvRow) (today : PyDate)
    (uid : Option Nat) :
    (∀ errs, (import_assets db headers rows today uid).1 = .failed errs →
      (import_assets db headers rows today uid).2 = db)
    ∧ (∀ miss, (import_assets db headers rows today uid).1 = .headerError miss →
      (import_assets db headers rows today uid).2 = db)
    ∧ ((["name", "status", "category_code", "location_code"].filter
          (fun h => ¬ headers.contains h)) = [] →
      ∀ row ∈ rows, pyStrip (row.name.getD "") = "" →
      ∃ errs, (import_assets db headers rows today uid).1 = .failed errs
        ∧ (import_assets db headers rows today uid).2 = db)
    ∧ (∀ n, (import_assets db headers rows today uid).1 = .ok n →
      ((rows.foldl (fun p row => (importRow p.1 p.2 row today uid, p.2 + 1))
          ({ db := db }, 2)).1).errors = []
      ∧ (import_assets db headers rows today uid).2
        = ((rows.foldl (fun p row => (importRow p.1 p.2 row today uid, p.2 + 1))
            ({ db := db }, 2)).1).db) := by
  by_cases hmiss : (["name", "status", "category_code", "location_code"].filter
      (fun h => ¬ headers.contains h)) = []
  · by_cases herr : ((rows.foldl (fun p row => (importRow p.1 p.2 row today uid, p.2 + 1))
        ({ db := db }, 2)).1).errors = []
    · have hval : import_assets db headers rows today uid =
          (.ok ((rows.foldl (fun p row => (importRow p.1 p.2 row today uid, p.2 + 1))
              ({ db := db }, 2)).1).created,
            ((rows.foldl (fun p row => (importRow p.1 p.2 row today uid, p.2 + 1))
              ({ db := db }, 2)).1).db) := by
        simp only [import_assets]
        rw [if_neg (not_not_intro hmiss)]
        rw [if_neg (not_not_intro herr)]
      refine ⟨?_, ?_, ?_, ?_⟩
      · intro errs h
        rw [hval] at h
        exact ImportOutcome.noConfusion h
      · intro miss h
        rw [hval] at h
        exact ImportOutcome.noConfusion h
      · intro hh row hrow hname
        exact absurd herr (importFold_errors_ne_nil rows today uid _ row hrow hname)
      · intro n h
        rw [hval]
        exact ⟨herr, rfl⟩
    · have hval : import_assets db headers rows today uid =
          (.failed ((rows.foldl (fun p row => (importRow p.1 p.2 row today uid, p.2 + 1))
              ({ db := db }, 2)).1).errors, db) := by
        simp only [import_assets]
        rw [if_neg (not_not_intro hmiss)]
        rw [if_pos herr]
      refine ⟨?_, ?_, ?_, ?_⟩
      · intro errs h
        rw [hval]
      · intro miss h
        rw [hval] at h
        exact ImportOutcome.noConfusion h
      · intro hh row hrow hname
        rw [hval]
        exact ⟨_, rfl, rfl⟩
      · intro n h
        rw [hval] at h
        exact ImportOutcome.noConfusion h
  · have hval : import_assets db headers rows today uid =
        (.headerError (["name", "status", "category_code", "location_code"].filter
          (fun h => ¬ headers.contains h)), db) := by
      simp only [import_assets]
      rw [if_pos hmiss]
    refine ⟨?_, ?_, ?_, ?_⟩
    · intro errs h
      rw [hval] at h
      exact ImportOutcome.noConfusion h
    · intro miss h
      rw [hval]
    · intro hh row hrow hname
      exact absurd hh hmiss
    · intro n h
      rw [hval] at h
      exact ImportOutcome.noConfusion h

/-- Claim C8 witness: importing one good row followed by one blank-name row
fails and leaves the concrete store untouched. -/
theorem claimC8_witness :
    (∃ errs, (import_assets wDb wHeaders [wRow, wBadRow] wDate none).1 = .failed errs
      ∧ (import_assets wDb wHeaders [wRow, wBadRow] wDate none).2 = wDb) :=
  (claimC8 wDb wHeaders [wRow, wBadRow] wDate none).2.2.1 rfl wBadRow
    (by decide) rfl

end Inventory